import Mathlib

/-!
Shallow embedding of the GAT-Website server core (TypeScript) in Lean 4,
together with theorems settling the frozen claims about its specification.

Conventions used throughout the embedding:
* JavaScript strings are Lean `String`s; `undefined`/`null` object fields are
  `Option` values.
* Epoch timestamps (`Date` values, `getTime()` results) are `Int` milliseconds;
  parsing of ISO date strings is modelled by carrying the parsed epoch value
  (`Option Int`, `none` for an invalid date).
* JavaScript `Set`/`Map`/record objects are association lists preserving
  insertion order; membership is list membership.
* Database tables are Lean lists of rows; SQL `DATE(ts)` is modelled as the
  UTC calendar-day number `ts.fdiv 86400000`; generated row ids come from a
  `nextId` counter threaded through the state.
* Floating-point API numbers (scores) are modelled as integers; none of the
  claims depends on float rounding behaviour.
-/

namespace GAT

/-- JavaScript truthiness of an optional string (`undefined`, `null` and `""`
are falsy). -/
def truthyStr : Option String → Bool
  | none => false
  | some s => !(s == "")

/-- JavaScript truthiness of an optional number (`undefined`, `null` and `0`
are falsy). -/
def truthyInt : Option Int → Bool
  | none => false
  | some n => !(n == 0)

/-- UTC calendar-day number of an epoch-millisecond timestamp (the value of
SQL `DATE(timestamp)` and of `Date.UTC(getUTCFullYear, getUTCMonth,
getUTCDate)` divided by the day length). -/
def utcDayOf (ms : Int) : Int := Int.fdiv ms 86400000

/-- JavaScript `toLowerCase()` (ASCII range), character by character. -/
def jsToLower (s : String) : String := String.mk (s.data.map Char.toLower)

/-- JavaScript `toUpperCase()` (ASCII range), character by character. -/
def jsToUpper (s : String) : String := String.mk (s.data.map Char.toUpper)

/-- Split a character list on every occurrence of a separator character. -/
def splitOnChar (sep : Char) : List Char → List (List Char)
  | [] => [[]]
  | c :: rest =>
      let r := splitOnChar sep rest
      if c = sep then [] :: r
      else
        match r with
        | [] => [[c]]
        | h :: t => (c :: h) :: t

/-- JavaScript `String.split` with a one-character separator. -/
def jsSplit (s : String) (sep : Char) : List String :=
  (splitOnChar sep s.data).map String.mk

/-- `parseInt(·, 10)` on an all-digit string. -/
def digitsToNat (cs : List Char) : Nat :=
  cs.foldl (fun acc c => acc * 10 + (c.toNat - 48)) 0

/-! ## Run Deduplicator (`src/server/modules/run-deduplicator.ts`) -/

/-- A stored run as seen by the deduplicator (interface `ExistingRun`). -/
structure ExistingRun where
  dungeon : String
  keyLevel : Int
  timestampMs : Int
  url : Option String
  deriving Repr, DecidableEq

/-- A freshly fetched run as seen by the deduplicator (interface `ApiRun`);
`completed_at` is carried as its parsed epoch value. -/
structure ApiRun where
  dungeon : String
  mythic_level : Int
  completed_at_ms : Int
  url : Option String
  deriving Repr, DecidableEq

/-- `normalizeTimestamp`: truncate an epoch timestamp to UTC midnight. -/
def normalizeTimestamp (ms : Int) : Int := (Int.fdiv ms 86400000) * 86400000

/-- `makeCompositeKey`: the `dungeon-keyLevel-utcMidnightMs` fallback key. -/
def makeCompositeKey (dungeon : String) (keyLevel : Int) (timestampMs : Int) : String :=
  let normalizedMs := normalizeTimestamp timestampMs
  s!"{dungeon}-{keyLevel}-{normalizedMs}"

/-- The deduplicator's two in-memory sets (class `RunDeduplicator`). -/
structure RunDeduplicator where
  urlSet : List String
  compositeKeySet : List String
  deriving Repr, DecidableEq

/-- The `RunDeduplicator` constructor: URLs of stored runs that have a truthy
`url`, composite keys of those that do not. -/
def RunDeduplicator.ofExistingRuns (existingRuns : List ExistingRun) : RunDeduplicator where
  urlSet := (existingRuns.filter (fun r => truthyStr r.url)).filterMap (fun r => r.url)
  compositeKeySet :=
    (existingRuns.filter (fun r => !truthyStr r.url)).map
      (fun r => makeCompositeKey r.dungeon r.keyLevel r.timestampMs)

/-- `RunDeduplicator.isNewRun`. -/
def RunDeduplicator.isNewRun (d : RunDeduplicator) (run : ApiRun) : Bool :=
  let compositeKey := makeCompositeKey run.dungeon run.mythic_level run.completed_at_ms
  let existsByUrl := truthyStr run.url && d.urlSet.contains (run.url.getD "")
  let existsByCompositeKey := d.compositeKeySet.contains compositeKey
  !existsByUrl && !existsByCompositeKey

/-- `RunDeduplicator.markAsSeen`. -/
def RunDeduplicator.markAsSeen (d : RunDeduplicator) (run : ApiRun) : RunDeduplicator :=
  let compositeKey := makeCompositeKey run.dungeon run.mythic_level run.completed_at_ms
  if truthyStr run.url then
    { d with urlSet := d.urlSet ++ [run.url.getD ""] }
  else
    { d with compositeKeySet := d.compositeKeySet ++ [compositeKey] }

/-! ## Player rows (`players` table, `src/shared/schema.ts`) -/

/-- A row of the `players` table. `class` is a Lean keyword and is rendered
`className`. Nullable integer counters are plain `Int`s: the source reads
them as `(x || 0)`, which collapses SQL `NULL` and `0`. -/
structure Player where
  id : String
  name : String
  realm : String
  className : String
  spec : Option String
  race : Option String
  level : Int
  itemLevel : Int
  mythicScore : Int
  guildRank : String
  avatarUrl : Option String
  isActive : Bool
  lastSeenMs : Option Int
  messagesCount : Int
  lastMessage : Option String
  lastMessageTimeMs : Option Int
  lastRioSyncMs : Option Int
  totalRunsTracked : Int
  mostPlayedDungeon : Option String
  runsInTime : Int
  runsOverTime : Int
  runsByLevelLow : Int
  runsByLevelMid : Int
  runsByLevelHigh : Int
  runsByLevelElite : Int
  highestKeyLevel : Int
  deriving Repr, DecidableEq

/-! ## Stats Aggregator (`src/server/modules/stats-aggregator.ts`) -/

/-- The run argument of `updatePlayerStats` (interface `MythicRun` of the
aggregator module). -/
structure StatsRun where
  dungeon : String
  keyLevel : Int
  clearTimeMs : Int
  parTimeMs : Int
  deriving Repr, DecidableEq

/-- The four level-bracket counters of `updatePlayerStats`. -/
inductive LevelBucket
  | low
  | mid
  | high
  | elite
  deriving Repr, DecidableEq

/-- The level-bracket selection of `updatePlayerStats`. -/
def levelBucketOf (keyLevel : Int) : LevelBucket :=
  if keyLevel ≤ 6 then .low
  else if keyLevel ≤ 9 then .mid
  else if keyLevel ≤ 14 then .high
  else .elite

/-- Increment the entry of `k` in an insertion-ordered frequency record
(`dungeonCounts[k] = (dungeonCounts[k] || 0) + 1`). -/
def bumpCount : List (String × Int) → String → List (String × Int)
  | [], k => [(k, 1)]
  | (k', v) :: rest, k =>
      if k' = k then (k', v + 1) :: rest else (k', v) :: bumpCount rest k

/-- The `mostPlayed` scan of `updatePlayerStats`: initial candidate
`run.dungeon` with count 0, replaced whenever a strictly larger count is
seen, in insertion order. -/
def mostPlayedOf (entries : List (String × Int)) (init : String) : String :=
  (entries.foldl
      (fun (acc : String × Int) e => if e.2 > acc.2 then e else acc)
      (init, 0)).1

/-- `updatePlayerStats` (pure form: the resulting player row). -/
def updatePlayerStats (player : Player) (run : StatsRun)
    (existingRuns : List ExistingRun) : Player :=
  let inTime := run.clearTimeMs ≤ run.parTimeMs
  let levelBucket := levelBucketOf run.keyLevel
  let dungeonCounts :=
    bumpCount (existingRuns.foldl (fun m r => bumpCount m r.dungeon) []) run.dungeon
  let mostPlayed := mostPlayedOf dungeonCounts run.dungeon
  let newHighestKey := max player.highestKeyLevel run.keyLevel
  { player with
    totalRunsTracked := player.totalRunsTracked + 1
    mostPlayedDungeon := some mostPlayed
    runsInTime := player.runsInTime + (if inTime then 1 else 0)
    runsOverTime := player.runsOverTime + (if inTime then 0 else 1)
    runsByLevelLow := player.runsByLevelLow + (if levelBucket = .low then 1 else 0)
    runsByLevelMid := player.runsByLevelMid + (if levelBucket = .mid then 1 else 0)
    runsByLevelHigh := player.runsByLevelHigh + (if levelBucket = .high then 1 else 0)
    runsByLevelElite := player.runsByLevelElite + (if levelBucket = .elite then 1 else 0)
    highestKeyLevel := newHighestKey }

/-! ## Guild-run detection (`src/unnamed/part_001`: `generateRunKey`,
`normalizeRealm`, `findGuildPlayer`, `processGuildRuns`) -/

/-- A party-roster member of a fetched run (`RaiderIORosterMember`). -/
structure RosterMember where
  name : String
  realmSlug : String
  realmName : String
  className : String
  deriving Repr, DecidableEq

/-- A run fetched from the external scoring API (`RaiderIORun`);
`completed_at` is carried as its parsed epoch value, `score` as an integer,
and each affix object as its `name` field. A missing roster is the empty
list (the source skips a run when `!run.roster || run.roster.length < 2`). -/
structure RaiderIORun where
  dungeon : String
  short_name : String
  mythic_level : Int
  completed_at_ms : Int
  clear_time_ms : Int
  par_time_ms : Int
  num_keystone_upgrades : Int
  score : Int
  url : Option String
  affixes : List String
  roster : List RosterMember
  deriving Repr, DecidableEq

/-- A fetched run viewed through the deduplicator's `ApiRun` interface. -/
def RaiderIORun.toApiRun (r : RaiderIORun) : ApiRun where
  dungeon := r.dungeon
  mythic_level := r.mythic_level
  completed_at_ms := r.completed_at_ms
  url := r.url

/-- `generateRunKey`: trailing path segment of a truthy URL, else the
`dungeon-level-completionEpochMillis` composite. -/
def generateRunKey (run : RaiderIORun) : String :=
  if truthyStr run.url then
    (jsSplit (run.url.getD "") '/').getLastD ""
  else
    let lvl := run.mythic_level
    let ms := run.completed_at_ms
    s!"{run.dungeon}-{lvl}-{ms}"

/-- Map the lowercase accented Latin vowels handled by `normalizeRealm` to
their plain counterparts. -/
def deaccent (c : Char) : Char :=
  if c = 'á' then 'a'
  else if c = 'é' then 'e'
  else if c = 'í' then 'i'
  else if c = 'ó' then 'o'
  else if c = 'ú' then 'u'
  else c

/-- `normalizeRealm`: lowercase, strip apostrophes/hyphens/spaces,
transliterate the accented vowels. -/
def normalizeRealm (realm : String) : String :=
  let lowered := jsToLower realm
  let stripped := lowered.data.filter (fun c => c ≠ '\'' && c ≠ '-' && c ≠ ' ')
  String.mk (stripped.map deaccent)

/-- The per-pass guild-player cache key (`refreshGuildPlayerCache`). -/
def guildCacheKey (name realm : String) : String :=
  let lname := jsToLower name
  let nrealm := normalizeRealm realm
  s!"{lname}-{nrealm}"

/-- The guild-player lookup cache, rebuilt from the active roster before a
sync pass. -/
abbrev GuildPlayerCache := List (String × Player)

/-- Build the cache from all players, keeping the active ones
(`refreshGuildPlayerCache`). -/
def refreshGuildPlayerCache (allPlayers : List Player) : GuildPlayerCache :=
  (allPlayers.filter (fun p => p.isActive)).map
    (fun p => (guildCacheKey p.name p.realm, p))

/-- `findGuildPlayer`: look a normalized name-realm key up in the cache. -/
def findGuildPlayer (cache : GuildPlayerCache) (name realm : String) : Option Player :=
  (cache.find? (fun e => e.1 = guildCacheKey name realm)).map (fun e => e.2)

/-- A row of the `guild_mythic_runs` table. -/
structure GuildMythicRun where
  id : String
  runKey : String
  dungeon : String
  mythicLevel : Int
  completedAtMs : Int
  clearTimeMs : Int
  parTimeMs : Int
  score : Int
  keystoneUpgrades : Int
  guildPlayerIds : List String
  guildPlayerNames : List String
  totalGuildMembers : Int
  deriving Repr, DecidableEq

/-- A row of the `activity_events` table. -/
structure ActivityEvent where
  id : String
  type : String
  playerId : String
  playerName : String
  playerClass : String
  title : String
  description : Option String
  value : Int
  timestampMs : Int
  deriving Repr, DecidableEq

/-- The slice of stored state touched by guild-run detection. -/
structure GuildRunState where
  guildRuns : List GuildMythicRun
  events : List ActivityEvent
  nextId : Nat
  deriving Repr, DecidableEq

/-- The guild members found in a run's roster, in roster order: each member's
name joined with `realm.name || realm.slug` and looked up in the cache. -/
def guildMembersOf (cache : GuildPlayerCache) (run : RaiderIORun) : List Player :=
  run.roster.filterMap (fun member =>
    let memberRealm := if truthyStr (some member.realmName) then member.realmName
      else member.realmSlug
    findGuildPlayer cache member.name memberRealm)

/-- One iteration of the `processGuildRuns` loop for a single run. -/
def processGuildRun1 (cache : GuildPlayerCache) (st : GuildRunState)
    (run : RaiderIORun) : GuildRunState :=
  if run.roster.length < 2 then st
  else
    let guildMembers := guildMembersOf cache run
    if guildMembers.length < 2 then st
    else
      let runKey := generateRunKey run
      if (st.guildRuns.find? (fun g => g.runKey = runKey)).isSome then st
      else match guildMembers with
      | [] => st
      | primaryPlayer :: _ =>
        let names := guildMembers.map (fun p => p.name)
        let joined := String.intercalate ", " names
        let lvl := run.mythic_level
        { guildRuns := st.guildRuns ++
            [{ id := toString st.nextId
               runKey := runKey
               dungeon := run.dungeon
               mythicLevel := run.mythic_level
               completedAtMs := run.completed_at_ms
               clearTimeMs := run.clear_time_ms
               parTimeMs := run.par_time_ms
               score := run.score
               keystoneUpgrades := run.num_keystone_upgrades
               guildPlayerIds := guildMembers.map (fun p => p.id)
               guildPlayerNames := names
               totalGuildMembers := guildMembers.length }]
          events := st.events ++
            [{ id := toString (st.nextId + 1)
               type := "guild_mythic_run"
               playerId := primaryPlayer.id
               playerName := primaryPlayer.name
               playerClass := primaryPlayer.className
               title := s!"Completed {run.dungeon} +{lvl}"
               description :=
                 if guildMembers.length > 1 then some s!"Guild group: {joined}"
                 else none
               value := run.mythic_level
               timestampMs := run.completed_at_ms }]
          nextId := st.nextId + 2 }

/-- `processGuildRuns`: fold the single-run step over the fetched runs. -/
def processGuildRuns (cache : GuildPlayerCache) (st : GuildRunState)
    (runs : List RaiderIORun) : GuildRunState :=
  runs.foldl (processGuildRun1 cache) st

/-! ## Storage layer (`src/server/storage.ts`) and server state -/

/-- Stable insertion step for a descending sort by an integer key: the new
element is placed before the first element whose key is at most its own, so
elements with equal keys keep their relative order. Models SQL
`ORDER BY timestamp DESC`. -/
def insertDescBy (key : α → Int) (x : α) : List α → List α
  | [] => [x]
  | y :: ys => if key y ≤ key x then x :: y :: ys else y :: insertDescBy key x ys

/-- Stable descending sort by an integer key. -/
def sortByDesc (key : α → Int) (l : List α) : List α :=
  l.foldr (insertDescBy key) []

/-- A row of the `mythic_runs` table; `timer_percent` is a SQL `real` and is
modelled as an exact rational. -/
structure MythicRunRow where
  id : String
  playerId : String
  dungeon : String
  keyLevel : Int
  completionTime : Int
  timerPercent : ℚ
  score : Int
  affixes : List String
  timestampMs : Int
  url : Option String
  clearTimeMs : Option Int
  parTimeMs : Option Int
  deriving Repr, DecidableEq

/-- The insert payload of `upsertMythicRun` (`InsertMythicRun`). -/
structure InsertMythicRun where
  playerId : String
  dungeon : String
  keyLevel : Int
  completionTime : Int
  timerPercent : ℚ
  score : Int
  affixes : List String
  timestampMs : Int
  url : Option String
  clearTimeMs : Option Int
  parTimeMs : Option Int
  deriving Repr, DecidableEq

/-- A stored mythic run viewed through the structural `ExistingRun` interface
shared by the deduplicator and the stats aggregator. -/
def MythicRunRow.toExistingRun (r : MythicRunRow) : ExistingRun where
  dungeon := r.dungeon
  keyLevel := r.keyLevel
  timestampMs := r.timestampMs
  url := r.url

/-- A row of the `uploader_statuses` table.

Modelled from the spec: the `uploader_statuses` table definition is not under
`src/` (only its uses in `storage.ts` and `routes.ts` are); per §3 of the
spec it tracks, per uploader identity, the last accepted batch index, the
expected next index, the current session id and an error condition, and its
state is one of `idle`/`processing`/`out_of_order`. -/
structure UploaderStatus where
  id : String
  uploaderId : String
  status : String
  lastSessionId : Option String
  lastBatchIndex : Option Int
  expectedBatchIndex : Option Int
  totalBatches : Option Int
  lastError : Option String
  lastPhase : Option String
  updatedAtMs : Int
  deriving Repr, DecidableEq

/-- Modelled from the spec: a freshly inserted uploader-status row
(`ensureUploaderStatus` inserts only the `uploaderId`; the remaining columns
take their table defaults, which are not under `src/`) starts `idle` with
null tracking fields. -/
def freshUploaderStatus (id : String) (uploaderId : String) (nowMs : Int) :
    UploaderStatus where
  id := id
  uploaderId := uploaderId
  status := "idle"
  lastSessionId := none
  lastBatchIndex := none
  expectedBatchIndex := none
  totalBatches := none
  lastError := none
  lastPhase := none
  updatedAtMs := nowMs

/-- The `UploaderStatusUpdate` payload of `updateUploaderStatus`. An outer
`none` is an absent (`undefined`) field, dropped by `sanitizeUpdate`; for
nullable columns an inner `none` is an explicit SQL `NULL`. -/
structure UploaderStatusUpdate where
  status : Option String
  lastSessionId : Option (Option String)
  lastBatchIndex : Option Int
  expectedBatchIndex : Option (Option Int)
  totalBatches : Option (Option Int)
  lastError : Option (Option String)
  lastPhase : Option (Option String)
  deriving Repr, DecidableEq

/-- Apply a sanitized update to an uploader-status row, refreshing
`updatedAt`. -/
def applyStatusUpdate (s : UploaderStatus) (u : UploaderStatusUpdate)
    (nowMs : Int) : UploaderStatus where
  id := s.id
  uploaderId := s.uploaderId
  status := u.status.getD s.status
  lastSessionId := u.lastSessionId.getD s.lastSessionId
  lastBatchIndex := match u.lastBatchIndex with
    | some n => some n
    | none => s.lastBatchIndex
  expectedBatchIndex := u.expectedBatchIndex.getD s.expectedBatchIndex
  totalBatches := u.totalBatches.getD s.totalBatches
  lastError := u.lastError.getD s.lastError
  lastPhase := u.lastPhase.getD s.lastPhase
  updatedAtMs := nowMs

/-- A row of the `activity_snapshots` table. -/
structure ActivitySnapshotRow where
  id : String
  timestampMs : Int
  totalOnline : Int
  dayOfWeek : Int
  hourOfDay : Int
  deriving Repr, DecidableEq

/-- The upload-session fields of the `guild_settings` row. -/
structure UploadSessionState where
  currentUploadSession : Option String
  uploadSessionStartedAtMs : Option Int
  uploadSessionProcessedCount : Int
  lastUploadCompletedAtMs : Option Int
  deriving Repr, DecidableEq

/-- The persisted server state touched by the embedded operations: the
relational tables as lists of rows, the guild-settings upload-session
fields, the configured guild realm, and the fresh-row-id counter. -/
structure ServerState where
  players : List Player
  mythicRuns : List MythicRunRow
  guildRuns : List GuildMythicRun
  events : List ActivityEvent
  snapshots : List ActivitySnapshotRow
  uploaderStatuses : List UploaderStatus
  session : UploadSessionState
  realm : String
  nextId : Nat
  deriving Repr, DecidableEq

/-- The guild-run slice of the server state, as consumed by
`processGuildRuns`. -/
def ServerState.guildRunSlice (st : ServerState) : GuildRunState where
  guildRuns := st.guildRuns
  events := st.events
  nextId := st.nextId

/-- Write a guild-run slice back into the server state. -/
def ServerState.withGuildRunSlice (st : ServerState) (g : GuildRunState) :
    ServerState :=
  { st with guildRuns := g.guildRuns, events := g.events, nextId := g.nextId }

/-- `getPlayerByName`: first stored player with this name and realm. -/
def getPlayerByName (st : ServerState) (name realm : String) : Option Player :=
  st.players.find? (fun p => p.name = name && p.realm = realm)

/-- Apply a field update to every player row carrying the given id
(`db.update(players).set(...).where(eq(players.id, id))`); the concrete set
of updated columns is the function supplied at each call site. -/
def updatePlayerRow (st : ServerState) (id : String) (f : Player → Player) :
    ServerState :=
  { st with players := st.players.map (fun p => if p.id = id then f p else p) }

/-- The upsert payload of `upsertPlayer` (a `Partial<InsertPlayer>` with the
natural key and class always present). -/
structure UpsertPlayerData where
  name : String
  realm : String
  className : String
  spec : Option String
  race : Option String
  level : Option Int
  itemLevel : Option Int
  mythicScore : Option Int
  guildRank : Option String
  messagesCount : Option Int
  isActive : Option Bool
  deriving Repr, DecidableEq

/-- Whether the `updates` object built by `upsertPlayer` has at least one
key (`Object.keys(updates).length > 0`). -/
def UpsertPlayerData.hasUpdates (d : UpsertPlayerData) : Bool :=
  d.spec.isSome || d.race.isSome || d.level.isSome || d.itemLevel.isSome ||
  d.mythicScore.isSome || d.guildRank.isSome || d.messagesCount.isSome ||
  d.isActive.isSome

/-- Apply the defined fields of an upsert payload to an existing player row
(the `updates` object of `upsertPlayer`). -/
def UpsertPlayerData.applyTo (d : UpsertPlayerData) (p : Player) : Player :=
  { p with
    spec := match d.spec with | some s => some s | none => p.spec
    race := match d.race with | some r => some r | none => p.race
    level := d.level.getD p.level
    itemLevel := d.itemLevel.getD p.itemLevel
    mythicScore := d.mythicScore.getD p.mythicScore
    guildRank := d.guildRank.getD p.guildRank
    messagesCount := d.messagesCount.getD p.messagesCount
    isActive := d.isActive.getD p.isActive }

/-- `createPlayer` as invoked from `upsertPlayer`'s miss branch: the payload
fields with the source's fallback defaults, the other columns at their table
defaults. -/
def createPlayerFromUpsert (st : ServerState) (d : UpsertPlayerData) :
    ServerState × Player :=
  let p : Player :=
    { id := toString st.nextId
      name := d.name
      realm := d.realm
      className := d.className
      spec := d.spec
      race := d.race
      level := d.level.getD 80
      itemLevel := d.itemLevel.getD 0
      mythicScore := d.mythicScore.getD 0
      guildRank := d.guildRank.getD "Member"
      avatarUrl := none
      isActive := d.isActive.getD true
      lastSeenMs := none
      messagesCount := d.messagesCount.getD 0
      lastMessage := none
      lastMessageTimeMs := none
      lastRioSyncMs := none
      totalRunsTracked := 0
      mostPlayedDungeon := none
      runsInTime := 0
      runsOverTime := 0
      runsByLevelLow := 0
      runsByLevelMid := 0
      runsByLevelHigh := 0
      runsByLevelElite := 0
      highestKeyLevel := 0 }
  ({ st with players := st.players ++ [p], nextId := st.nextId + 1 }, p)

/-- `upsertPlayer`. -/
def upsertPlayer (st : ServerState) (d : UpsertPlayerData) :
    ServerState × Player :=
  match getPlayerByName st d.name d.realm with
  | some existing =>
      if d.hasUpdates then
        (updatePlayerRow st existing.id d.applyTo, d.applyTo existing)
      else (st, existing)
  | none => createPlayerFromUpsert st d

/-- `deactivatePlayersByName`: one update per name-realm pair, counting the
rows that were active and matched. -/
def deactivatePlayersByName (st : ServerState)
    (playerNames : List (String × String)) : ServerState × Nat :=
  playerNames.foldl
    (fun (acc : ServerState × Nat) nr =>
      let st := acc.1
      let count := acc.2
      let hits := st.players.countP
        (fun p => p.name = nr.1 && p.realm = nr.2 && p.isActive)
      let st' := { st with players := st.players.map (fun p =>
        if p.name = nr.1 && p.realm = nr.2 && p.isActive then
          { p with isActive := false } else p) }
      (st', count + hits))
    (st, 0)

/-- `markAllPlayersInactive`. -/
def markAllPlayersInactive (st : ServerState) : ServerState × Nat :=
  ({ st with players := st.players.map (fun p => { p with isActive := false }) },
   st.players.countP (fun p => p.isActive))

/-- `updatePlayerLastSeen`. -/
def updatePlayerLastSeen (st : ServerState) (name realm : String)
    (lastSeenMs : Int) : ServerState :=
  match getPlayerByName st name realm with
  | some existing =>
      updatePlayerRow st existing.id (fun p => { p with lastSeenMs := some lastSeenMs })
  | none => st

/-- `ensureUploaderStatus`: fetch the status row for this uploader identity,
inserting a fresh one if absent. -/
def ensureUploaderStatus (st : ServerState) (uploaderId : String) (nowMs : Int) :
    ServerState × UploaderStatus :=
  match st.uploaderStatuses.find? (fun s => s.uploaderId = uploaderId) with
  | some existing => (st, existing)
  | none =>
      let created := freshUploaderStatus (toString st.nextId) uploaderId nowMs
      ({ st with uploaderStatuses := st.uploaderStatuses ++ [created]
                 nextId := st.nextId + 1 }, created)

/-- `updateUploaderStatus`. -/
def updateUploaderStatus (st : ServerState) (uploaderId : String)
    (u : UploaderStatusUpdate) (nowMs : Int) : ServerState × UploaderStatus :=
  let ensured := ensureUploaderStatus st uploaderId nowMs
  let st1 := ensured.1
  let current := ensured.2
  let updated := applyStatusUpdate current u nowMs
  ({ st1 with uploaderStatuses := st1.uploaderStatuses.map (fun s =>
      if s.id = current.id then updated else s) }, updated)

/-- `markUploaderOutOfOrder`. -/
def markUploaderOutOfOrder (st : ServerState) (uploaderId : String)
    (expectedBatchIndex : Int) (receivedBatchIndex : Option Int)
    (sessionId : Option String) (totalBatches : Option Int)
    (lastPhase : Option String) (nowMs : Int) : ServerState × UploaderStatus :=
  let recvStr := match receivedBatchIndex with
    | some n => toString n
    | none => "none"
  let errorMessage := s!"Out-of-order batch (expected {expectedBatchIndex}, received {recvStr})"
  updateUploaderStatus st uploaderId
    { status := some "out_of_order"
      lastError := some (some errorMessage)
      expectedBatchIndex := some (some expectedBatchIndex)
      lastBatchIndex := receivedBatchIndex
      lastSessionId := sessionId.map some
      totalBatches := totalBatches.map some
      lastPhase := lastPhase.map some }
    nowMs

/-- `startUploadSession`. -/
def startUploadSession (st : ServerState) (sessionId : String) (nowMs : Int) :
    ServerState :=
  { st with session :=
      { currentUploadSession := some sessionId
        uploadSessionStartedAtMs := some nowMs
        uploadSessionProcessedCount := 0
        lastUploadCompletedAtMs := st.session.lastUploadCompletedAtMs } }

/-- `clearUploadSession`. -/
def clearUploadSession (st : ServerState) (nowMs : Int) : ServerState :=
  { st with session :=
      { currentUploadSession := none
        uploadSessionStartedAtMs := none
        uploadSessionProcessedCount := 0
        lastUploadCompletedAtMs := some nowMs } }

/-- `incrementUploadProcessedCount`. -/
def incrementUploadProcessedCount (st : ServerState) (count : Int) : ServerState :=
  { st with session :=
      { st.session with uploadSessionProcessedCount :=
          st.session.uploadSessionProcessedCount + count } }

/-- `getMythicRuns` for one player: the player's stored runs, newest first. -/
def getMythicRuns (st : ServerState) (playerId : String) : List MythicRunRow :=
  sortByDesc (fun r => r.timestampMs)
    (st.mythicRuns.filter (fun r => r.playerId = playerId))

/-- The row-matching predicate of `upsertMythicRun`: player, dungeon, key
level and calendar day of the timestamp — the URL is not part of the
match. -/
def runMatchKey (insertRun : InsertMythicRun) (r : MythicRunRow) : Bool :=
  r.playerId = insertRun.playerId &&
  r.dungeon = insertRun.dungeon &&
  r.keyLevel = insertRun.keyLevel &&
  utcDayOf r.timestampMs = utcDayOf insertRun.timestampMs

/-- The row inserted by `upsertMythicRun`'s miss branch. -/
def insertedRunRow (st : ServerState) (insertRun : InsertMythicRun) :
    MythicRunRow where
  id := toString st.nextId
  playerId := insertRun.playerId
  dungeon := insertRun.dungeon
  keyLevel := insertRun.keyLevel
  completionTime := insertRun.completionTime
  timerPercent := insertRun.timerPercent
  score := insertRun.score
  affixes := insertRun.affixes
  timestampMs := insertRun.timestampMs
  url := insertRun.url
  clearTimeMs := insertRun.clearTimeMs
  parTimeMs := insertRun.parTimeMs

/-- `upsertMythicRun`: match an existing row by `runMatchKey` (the URL is
not part of the match); overwrite its result fields only on a strictly
greater score, else return the stored row unchanged; insert when no row
matches. -/
def upsertMythicRun (st : ServerState) (insertRun : InsertMythicRun) :
    ServerState × MythicRunRow :=
  match st.mythicRuns.find? (runMatchKey insertRun) with
  | some existing =>
      if insertRun.score > existing.score then
        let updated := { existing with
          completionTime := insertRun.completionTime
          timerPercent := insertRun.timerPercent
          score := insertRun.score
          affixes := insertRun.affixes
          clearTimeMs := insertRun.clearTimeMs
          parTimeMs := insertRun.parTimeMs }
        ({ st with mythicRuns := st.mythicRuns.map (fun r =>
            if r.id = existing.id then updated else r) }, updated)
      else (st, existing)
  | none =>
      let run := insertedRunRow st insertRun
      ({ st with mythicRuns := st.mythicRuns ++ [run], nextId := st.nextId + 1 },
       run)

/-- `deleteOldMythicRuns`: keep the `keepCount` newest stored runs of a
player, delete the rest. -/
def deleteOldMythicRuns (st : ServerState) (playerId : String)
    (keepCount : Nat) : ServerState × Nat :=
  let allRuns := getMythicRuns st playerId
  if allRuns.length ≤ keepCount then (st, 0)
  else
    let idsToDelete := (allRuns.drop keepCount).map (fun r => r.id)
    ({ st with mythicRuns := st.mythicRuns.filter (fun r =>
        !idsToDelete.contains r.id) }, idsToDelete.length)

/-! ## Upload payload (`addonUploadSchema`, `src/shared/schema.ts`) -/

/-- Roster reconciliation modes (`rosterModeSchema`). -/
inductive RosterMode
  | delta
  | full
  | no_change
  deriving Repr, DecidableEq

/-- Multi-batch session phases (`sessionPhaseSchema`). -/
inductive SessionPhase
  | start
  | chunk
  | final
  deriving Repr, DecidableEq

/-- The string form of a phase, as stored in the `lastPhase` column. -/
def SessionPhase.str : SessionPhase → String
  | .start => "start"
  | .chunk => "chunk"
  | .final => "final"

/-- A `master_roster` entry (`masterRosterEntrySchema`). -/
structure RosterEntry where
  rank : Option String
  lvl : Option Int
  classField : Option String
  deriving Repr, DecidableEq

/-- An `online` entry of a stats snapshot (`onlinePlayerSchema`); the
`rankIndex`/`zone`/`status` fields are never read by the upload handler and
are not carried. -/
structure OnlinePlayerInfo where
  rank : Option String
  level : Option Int
  classField : Option String
  deriving Repr, DecidableEq

/-- A stats snapshot (`statsSnapshotSchema`); the `iso` date string is
carried as its parsed epoch value, `none` for an invalid date. -/
structure StatsSnapshotData where
  ts : Int
  isoMs : Option Int
  online : List (String × OnlinePlayerInfo)
  onlineCount : Int
  deriving Repr, DecidableEq

/-- A chat-activity entry (`chatDataEntrySchema`); the `lastSeen` date
string is carried as its parsed epoch value and the unread `rankIndex` and
`daily` fields are not carried. -/
structure ChatDataEntry where
  total : Option Int
  lastSeenMs : Option Int
  lastSeenTS : Option Int
  lastMessage : Option String
  rankName : Option String
  deriving Repr, DecidableEq

/-- The `roster_summary` counters (`rosterSummarySchema`), echoed back in
the response. -/
structure RosterSummary where
  total : Option Int
  added : Option Int
  updated : Option Int
  removed : Option Int
  unchanged : Option Int
  deriving Repr, DecidableEq

/-- An upload payload as the handler reads it. Declared schema fields
carry their parsed values; a `removed_members` entry is carried as the
member's name (the handler reads only `.name` of the object form; a `stats`
record object is carried as its values array, as the handler converts it).
The last six fields are read by the handler (`routes.ts` 577-579) but are
NOT declared in `addonUploadSchema`; on any payload produced by
`parseAddonUpload` they are `none`. -/
structure AddonUploadData where
  master_roster : Option (List (String × RosterEntry))
  stats : Option (List StatsSnapshotData)
  dataField : Option (List (String × ChatDataEntry))
  upload_session_id : Option String
  is_final_batch : Option Bool
  batch_index : Option Int
  total_batches : Option Int
  batch_id : Option String
  session_phase : Option SessionPhase
  sessionPhase : Option SessionPhase
  roster_mode : Option RosterMode
  removed_members : Option (List String)
  roster_summary : Option RosterSummary
  reason : Option String
  rosterMode : Option RosterMode
  removedMembers : Option (List String)
  rosterSummary : Option RosterSummary
  add_update_only : Option Bool
  addUpdateOnly : Option Bool
  confirm_removals : Option Bool
  confirmRemovals : Option Bool
  base_roster_hash : Option String
  baseRosterHash : Option String
  deriving Repr, DecidableEq

/-- `addonUploadSchema.parse`: a zod object schema strips unknown keys, and
`add_update_only`, `addUpdateOnly`, `confirm_removals`, `confirmRemovals`,
`base_roster_hash` and `baseRosterHash` are not declared in
`addonUploadSchema`, so they are absent from every parsed payload. -/
def parseAddonUpload (raw : AddonUploadData) : AddonUploadData :=
  { raw with
    add_update_only := none
    addUpdateOnly := none
    confirm_removals := none
    confirmRemovals := none
    base_roster_hash := none
    baseRosterHash := none }

/-! ## Upload handler (`POST /api/upload`, `src/server/routes.ts` 565-923) -/

/-- `WOW_CLASS_MAP` (`src/shared/schema.ts`). -/
def WOW_CLASS_MAP : List (String × String) :=
  [("DEATHKNIGHT", "Death Knight"), ("DEMONHUNTER", "Demon Hunter"),
   ("DRUID", "Druid"), ("EVOKER", "Evoker"), ("HUNTER", "Hunter"),
   ("MAGE", "Mage"), ("MONK", "Monk"), ("PALADIN", "Paladin"),
   ("PRIEST", "Priest"), ("ROGUE", "Rogue"), ("SHAMAN", "Shaman"),
   ("WARLOCK", "Warlock"), ("WARRIOR", "Warrior")]

/-- `normalizeClass`: addon class token to display class, defaulting to
`Warrior` for a falsy input and to the raw value for an unknown token. -/
def normalizeClass (addonClass : Option String) : String :=
  if !truthyStr addonClass then "Warrior"
  else
    let c := addonClass.getD ""
    match WOW_CLASS_MAP.find? (fun e => e.1 = jsToUpper c) with
    | some e => e.2
    | none => c

/-- `parsePlayerName`: split a `Name-Realm` token, defaulting the realm. -/
def parsePlayerName (fullName defaultRealm : String) : String × String :=
  match jsSplit fullName '-' with
  | [] => (fullName, defaultRealm)
  | [_] => (fullName, defaultRealm)
  | name :: realmParts => (name, String.intercalate "-" realmParts)

/-- The normalized `rosterMode` (`data.roster_mode || data.rosterMode ||
null`; a present enum value is always truthy). -/
def rosterModeOf (data : AddonUploadData) : Option RosterMode :=
  data.roster_mode.orElse (fun _ => data.rosterMode)

/-- The normalized `sessionPhase`. -/
def sessionPhaseOf (data : AddonUploadData) : Option SessionPhase :=
  data.session_phase.orElse (fun _ => data.sessionPhase)

/-- The normalized `removedMembers` (`data.removed_members ||
data.removedMembers || []`; an array, even empty, is truthy). -/
def removedMembersOf (data : AddonUploadData) : List String :=
  match data.removed_members with
  | some l => l
  | none => data.removedMembers.getD []

/-- The normalized `addUpdateOnly` (`?? ?? false`). -/
def addUpdateOnlyOf (data : AddonUploadData) : Bool :=
  data.add_update_only.getD (data.addUpdateOnly.getD false)

/-- The normalized `confirmRemovals` (`?? ?? false`). -/
def confirmRemovalsOf (data : AddonUploadData) : Bool :=
  data.confirm_removals.getD (data.confirmRemovals.getD false)

/-- The normalized `baseRosterHash` (`|| || null`; an empty string is
falsy). -/
def baseRosterHashOf (data : AddonUploadData) : Option String :=
  if truthyStr data.base_roster_hash then data.base_roster_hash
  else if truthyStr data.baseRosterHash then data.baseRosterHash
  else none

/-- `isBatchedUpload`: a non-heartbeat roster mode with a batch index and a
session phase. -/
def isBatchedUpload (data : AddonUploadData) : Bool :=
  (match rosterModeOf data with
   | some m => m ≠ RosterMode.no_change
   | none => false) &&
  data.batch_index.isSome && (sessionPhaseOf data).isSome

/-- `removalGuardPassed`: a nonempty removal list, `add_update_only` not
set, and either `confirm_removals` or a truthy `base_roster_hash`. -/
def removalGuardPassed (data : AddonUploadData) : Bool :=
  !(removedMembersOf data).isEmpty &&
  !addUpdateOnlyOf data &&
  (confirmRemovalsOf data || (baseRosterHashOf data).isSome)

/-- The expected batch index: `0` on the `start` phase, else the stored
`lastBatchIndex` (defaulted to `-1`) plus one. -/
def expectedIndexOf (phase : SessionPhase) (status : UploaderStatus) : Int :=
  if phase = SessionPhase.start then 0 else status.lastBatchIndex.getD (-1) + 1

/-- The session-reset step (`routes.ts` 594-604): on a truthy incoming
session id different from the stored one, reset the uploader's batch
tracking. -/
def sessionResetApply (st : ServerState) (status0 : UploaderStatus)
    (data : AddonUploadData) (uploaderId : String) (nowMs : Int) :
    ServerState × UploaderStatus :=
  match data.upload_session_id with
  | some sid =>
      if sid ≠ "" && status0.lastSessionId ≠ some sid then
        updateUploaderStatus st uploaderId
          { status := some "processing"
            lastSessionId := some (some sid)
            lastBatchIndex := some (-1)
            expectedBatchIndex := some (some 0)
            totalBatches := some data.total_batches
            lastError := some none
            lastPhase := some ((sessionPhaseOf data).map SessionPhase.str) }
          nowMs
      else (st, status0)
  | none => (st, status0)

/-- `upsertRosterPlayers`: upsert every `master_roster` entry as an active
player (`level: entry.lvl || 80`, `guildRank: entry.rank || "Member"`). -/
def upsertRosterPlayers (st : ServerState)
    (roster : Option (List (String × RosterEntry))) (defaultRealm : String) :
    ServerState × Nat :=
  match roster with
  | none => (st, 0)
  | some entries =>
      entries.foldl
        (fun (acc : ServerState × Nat) e =>
          let st := acc.1
          let count := acc.2
          let nr := parsePlayerName e.1 defaultRealm
          let entry := e.2
          let st' := (upsertPlayer st
            { name := nr.1
              realm := nr.2
              className := normalizeClass entry.classField
              spec := none
              race := none
              level := some (if truthyInt entry.lvl then entry.lvl.getD 0 else 80)
              itemLevel := none
              mythicScore := none
              guildRank := some (if truthyStr entry.rank then entry.rank.getD "" else "Member")
              messagesCount := none
              isActive := some true }).1
          (st', count + 1))
        (st, 0)

/-- `createActivitySnapshot` (`storage.ts` 425-455): upsert by day-of-week,
hour-of-day and calendar day. -/
def createActivitySnapshot (st : ServerState)
    (timestampMs totalOnline dayOfWeek hourOfDay : Int) : ServerState :=
  match st.snapshots.find? (fun s =>
      s.dayOfWeek = dayOfWeek && s.hourOfDay = hourOfDay &&
      utcDayOf s.timestampMs = utcDayOf timestampMs) with
  | some existing =>
      { st with snapshots := st.snapshots.map (fun s =>
          if s.id = existing.id then
            { s with totalOnline := totalOnline, timestampMs := timestampMs }
          else s) }
  | none =>
      { st with
        snapshots := st.snapshots ++
          [{ id := toString st.nextId
             timestampMs := timestampMs
             totalOnline := totalOnline
             dayOfWeek := dayOfWeek
             hourOfDay := hourOfDay }]
        nextId := st.nextId + 1 }

/-- The per-snapshot online loop (`routes.ts` 812-829): refresh `lastSeen`
and, when a class or rank is carried, upsert the player as active. -/
def processSnapshotOnline (st : ServerState) (defaultRealm : String)
    (timestampMs : Int) (online : List (String × OnlinePlayerInfo)) :
    ServerState :=
  online.foldl
    (fun st e =>
      let nr := parsePlayerName e.1 defaultRealm
      let info := e.2
      let st := updatePlayerLastSeen st nr.1 nr.2 timestampMs
      if truthyStr info.classField || truthyStr info.rank then
        (upsertPlayer st
          { name := nr.1
            realm := nr.2
            className := normalizeClass info.classField
            spec := none
            race := none
            level := some (if truthyInt info.level then info.level.getD 0 else 80)
            itemLevel := none
            mythicScore := none
            guildRank := some (if truthyStr info.rank then info.rank.getD "" else "Member")
            messagesCount := none
            isActive := some true }).1
      else st)
    st

/-- The stats-array loop (`routes.ts` 787-831); `tz` models the
`America/New_York` wall-clock conversion, giving the JS weekday (0 =
Sunday) and hour of an epoch instant. -/
def processStats (tz : Int → Int × Int) (st : ServerState)
    (defaultRealm : String) (stats : List StatsSnapshotData) :
    ServerState × Nat :=
  stats.foldl
    (fun (acc : ServerState × Nat) snapshot =>
      let st := acc.1
      let n := acc.2
      match snapshot.isoMs with
      | none => (st, n)
      | some ms =>
          let jsDay := (tz ms).1
          let hourOfDay := (tz ms).2
          let dayOfWeek := if jsDay = 0 then 6 else jsDay - 1
          let st := createActivitySnapshot st ms snapshot.onlineCount dayOfWeek hourOfDay
          let st := processSnapshotOnline st defaultRealm ms snapshot.online
          (st, n + 1))
    (st, 0)

/-- The per-player chat-data update (`routes.ts` 835-874). -/
def processChatEntry (st : ServerState) (defaultRealm : String)
    (fullName : String) (chatEntry : ChatDataEntry) : ServerState × Bool :=
  let nr := parsePlayerName fullName defaultRealm
  match getPlayerByName st nr.1 nr.2 with
  | none => (st, false)
  | some existing =>
      let hasTotal := chatEntry.total.isSome
      let hasRank := truthyStr chatEntry.rankName && chatEntry.rankName ≠ some "—"
      let hasMsg := truthyStr chatEntry.lastMessage
      let msgTime : Option Int :=
        if truthyInt chatEntry.lastSeenTS then chatEntry.lastSeenTS.map (· * 1000)
        else if chatEntry.lastSeenMs.isSome then chatEntry.lastSeenMs
        else none
      if hasTotal || hasRank || hasMsg || msgTime.isSome then
        (updatePlayerRow st existing.id (fun p =>
          { p with
            messagesCount := if hasTotal then chatEntry.total.getD 0 else p.messagesCount
            guildRank := if hasRank then chatEntry.rankName.getD "" else p.guildRank
            lastMessage := if hasMsg then chatEntry.lastMessage else p.lastMessage
            lastMessageTimeMs := match msgTime with
              | some t => some t
              | none => p.lastMessageTimeMs }), true)
      else (st, false)

/-- The chat-data loop (`routes.ts` 834-875). -/
def processChatData (st : ServerState) (defaultRealm : String)
    (entries : List (String × ChatDataEntry)) : ServerState × Nat :=
  entries.foldl
    (fun (acc : ServerState × Nat) e =>
      let st := acc.1
      let n := acc.2
      let r := processChatEntry st defaultRealm e.1 e.2
      (r.1, if r.2 then n + 1 else n))
    (st, 0)

/-- The handler's HTTP result: the 400 validation rejection, the 409
out-of-order conflict (with the expected and received indices it reports),
or the success payload's `processed` counters. -/
inductive UploadResponse
  | badRequest (error : String)
  | conflict (expectedBatchIndex : Int) (receivedBatchIndex : Option Int)
  | success (playersProcessed removedCount snapshotsProcessed chatDataProcessed : Nat)
  deriving Repr, DecidableEq

/-- The roster-mode switch of the handler (`routes.ts` 688-779), returning
the state after roster processing together with `playersProcessed` and
`removedCount`. -/
def processRoster (st : ServerState) (data : AddonUploadData)
    (defaultRealm : String) (nowMs : Int) : ServerState × Nat × Nat :=
  let sessionPhase := sessionPhaseOf data
  let incomingSessionId := data.upload_session_id
  let isFinalBatch := data.is_final_batch = some true
  let removedNames :=
    (removedMembersOf data).map (fun m => parsePlayerName m defaultRealm)
  match rosterModeOf data with
  | some RosterMode.no_change => (clearUploadSession st nowMs, 0, 0)
  | some _ =>
      match sessionPhase with
      | some SessionPhase.start =>
          let st :=
            if truthyStr incomingSessionId then
              if st.session.currentUploadSession ≠ incomingSessionId then
                startUploadSession st (incomingSessionId.getD "") nowMs
              else st
            else st
          let up := upsertRosterPlayers st data.master_roster defaultRealm
          (up.1, up.2, 0)
      | some SessionPhase.chunk =>
          let up := upsertRosterPlayers st data.master_roster defaultRealm
          (up.1, up.2, 0)
      | some SessionPhase.final =>
          let up := upsertRosterPlayers st data.master_roster defaultRealm
          let rem :=
            if removalGuardPassed data then deactivatePlayersByName up.1 removedNames
            else (up.1, 0)
          (clearUploadSession rem.1 nowMs, up.2, rem.2)
      | none =>
          let up := upsertRosterPlayers st data.master_roster defaultRealm
          let rem :=
            if removalGuardPassed data then deactivatePlayersByName up.1 removedNames
            else (up.1, 0)
          let st3 := if isFinalBatch then clearUploadSession rem.1 nowMs else rem.1
          (st3, up.2, rem.2)
  | none =>
      let st :=
        if truthyStr incomingSessionId &&
            st.session.currentUploadSession ≠ incomingSessionId then
          startUploadSession (markAllPlayersInactive st).1 (incomingSessionId.getD "") nowMs
        else st
      let up := upsertRosterPlayers st data.master_roster defaultRealm
      let st2 := if up.2 > 0 then incrementUploadProcessedCount up.1 (Int.ofNat up.2) else up.1
      let st3 :=
        if isFinalBatch && truthyStr incomingSessionId then clearUploadSession st2 nowMs
        else st2
      (st3, up.2, 0)

/-- The uploader-status bookkeeping applied after successful processing
(`routes.ts` 878-897). -/
def finalStatusUpdate (st : ServerState) (data : AddonUploadData)
    (uploaderId : String) (currentSessionId : Option String) (nowMs : Int) :
    ServerState :=
  let sessionPhase := sessionPhaseOf data
  let isFinalBatch := data.is_final_batch = some true
  let completed := sessionPhase = some SessionPhase.final || isFinalBatch
  if isBatchedUpload data then
    match data.batch_index with
    | some b =>
        (updateUploaderStatus st uploaderId
          { status := some (if completed then "idle" else "processing")
            lastSessionId := some currentSessionId
            lastBatchIndex := some b
            expectedBatchIndex := some (some (if completed then 0 else b + 1))
            totalBatches := some data.total_batches
            lastError := some none
            lastPhase := some (sessionPhase.map SessionPhase.str) } nowMs).1
    | none => st
  else if truthyStr data.upload_session_id then
    (updateUploaderStatus st uploaderId
      { status := some (if completed then "idle" else "processing")
        lastSessionId := some currentSessionId
        lastBatchIndex := none
        expectedBatchIndex := none
        totalBatches := some data.total_batches
        lastError := some none
        lastPhase := some (sessionPhase.map SessionPhase.str) } nowMs).1
  else st

/-- The `POST /api/upload` handler body from the schema parse on
(`routes.ts` 565-923). Authentication precedes the parse and is out of
scope; the admin audit-log insert (write-only) is not carried in the
state. `tz` is the `America/New_York` wall-clock conversion used for
snapshot bucketing. -/
def handleUpload (tz : Int → Int × Int) (nowMs : Int) (uploaderId : String)
    (st0 : ServerState) (data : AddonUploadData) :
    ServerState × UploadResponse :=
  let defaultRealm := if st0.realm = "" then "Unknown" else st0.realm
  let sessionPhase := sessionPhaseOf data
  let ensured := ensureUploaderStatus st0 uploaderId nowMs
  let st1 := ensured.1
  let status0 := ensured.2
  let currentSessionId := data.upload_session_id.orElse (fun _ => status0.lastSessionId)
  let reset := sessionResetApply st1 status0 data uploaderId nowMs
  let st2 := reset.1
  let uploaderStatus := reset.2
  let orderingConflict : Option (Int × Option Int) :=
    if isBatchedUpload data then
      match sessionPhase, data.batch_index with
      | some ph, some b =>
          let e := expectedIndexOf ph uploaderStatus
          if b ≠ e then some (e, some b) else none
      | _, _ => none
    else none
  match orderingConflict with
  | some (e, r) =>
      let st3 := (markUploaderOutOfOrder st2 uploaderId e r currentSessionId
        data.total_batches (sessionPhase.map SessionPhase.str) nowMs).1
      (st3, .conflict e r)
  | none =>
      if (match rosterModeOf data with
          | some m => m ≠ RosterMode.no_change
          | none => false) &&
         data.batch_index.isSome && sessionPhase.isNone then
        (st2, .badRequest "session_phase required for batched uploads")
      else
        let rp := processRoster st2 data defaultRealm nowMs
        let st4 := rp.1
        let playersProcessed := rp.2.1
        let removedCount := rp.2.2
        let st5 :=
          if (rosterModeOf data).isSome && playersProcessed > 0 then
            incrementUploadProcessedCount st4 (Int.ofNat playersProcessed)
          else st4
        let snaps :=
          match data.stats with
          | some stats => processStats tz st5 defaultRealm stats
          | none => (st5, 0)
        let chat :=
          match data.dataField with
          | some entries => processChatData snaps.1 defaultRealm entries
          | none => (snaps.1, 0)
        let st8 := finalStatusUpdate chat.1 data uploaderId currentSessionId nowMs
        (st8, .success playersProcessed removedCount snaps.2 chat.2)

/-- The upload endpoint: zod parse followed by the handler. -/
def uploadEndpoint (tz : Int → Int × Int) (nowMs : Int) (uploaderId : String)
    (st : ServerState) (raw : AddonUploadData) : ServerState × UploadResponse :=
  handleUpload tz nowMs uploaderId st (parseAddonUpload raw)

/-! ## Third-party sync (`src/unnamed/part_001`: `syncPlayer` and helpers) -/

/-- A fetched character profile (`RaiderIOProfile`): the fields `syncPlayer`
reads. `scoresAll` carries `Math.round(mythic_plus_scores_by_season?.[0]?.
scores?.all || 0)` and `gearItemLevel` carries
`Math.round(gear?.item_level_equipped || 0)`, the two already-rounded
numbers the source derives from the nested payload. -/
structure RaiderIOProfile where
  scoresAll : Int
  gearItemLevel : Int
  classField : String
  active_spec_name : String
  race : String
  thumbnail_url : Option String
  mythic_plus_best_runs : Option (List RaiderIORun)
  mythic_plus_recent_runs : Option (List RaiderIORun)
  deriving Repr, DecidableEq

/-- `hasPlayerDataChanged`: the change-detection comparison of the sync. -/
def hasPlayerDataChanged (player : Player) (profile : RaiderIOProfile) : Bool :=
  let newScore := profile.scoresAll
  let newItemLevel := profile.gearItemLevel
  let newSpec := profile.active_spec_name
  let newRace := profile.race
  let newClass := profile.classField
  let newThumbnail := profile.thumbnail_url.getD ""
  player.mythicScore ≠ newScore ||
  player.itemLevel ≠ newItemLevel ||
  player.spec ≠ some newSpec ||
  player.race ≠ some newRace ||
  player.className ≠ newClass ||
  player.avatarUrl ≠ some newThumbnail

/-- The first match of the run-id pattern `/(\d+)-` in a character list:
a slash, a maximal nonempty digit run, a hyphen. -/
def firstRunIdMatch : List Char → Option String
  | [] => none
  | '/' :: rest =>
      let digits := rest.takeWhile Char.isDigit
      if !digits.isEmpty && (rest.drop digits.length).head? = some '-' then
        some (String.mk digits)
      else firstRunIdMatch rest
  | _ :: rest => firstRunIdMatch rest

/-- The keystone-run ids extracted from the recent-run URLs
(`routes` of `syncPlayer`, lines 334-344). -/
def runIdsOf (recentRuns : List RaiderIORun) : List Int :=
  recentRuns.filterMap (fun run =>
    if truthyStr run.url then
      (firstRunIdMatch (run.url.getD "").data).map
        (fun s => (Int.ofNat (digitsToNat s.data)))
    else none)

/-- `Math.round(a / b)` on integers, for a positive divisor. -/
def jsRoundDiv (a b : Int) : Int := Int.fdiv (2 * a + b) (2 * b)

/-- The merge of recent and best runs, deduplicating by URL with
recent runs taking priority (`syncPlayer`, lines 375-389). -/
def mergeRunsByUrl (recentRuns bestRuns : List RaiderIORun) :
    List RaiderIORun :=
  ((recentRuns ++ bestRuns).foldl
    (fun (acc : List (Option String) × List RaiderIORun) run =>
      let seenUrls := acc.1
      let allRuns := acc.2
      if seenUrls.contains run.url then acc
      else (seenUrls ++ [run.url], allRuns ++ [run]))
    ([], [])).2

/-- The outcome of one player sync. -/
inductive SyncResult
  | updated
  | skipped
  | failed
  deriving Repr, DecidableEq

/-- The per-run body of `syncPlayer`'s processing loop (lines 396-429):
dedup-check, upsert, mark seen, and on a novel run feed the stats
aggregator and extend the in-memory stats baseline. -/
def syncRunStep (playerId : String)
    (acc : ServerState × RunDeduplicator × List ExistingRun)
    (run : RaiderIORun) : ServerState × RunDeduplicator × List ExistingRun :=
  let st0 := acc.1
  let deduplicator := acc.2.1
  let existingRunsForStats := acc.2.2
  let isNewRun := deduplicator.isNewRun run.toApiRun
  let st := (upsertMythicRun st0
    { playerId := playerId
      dungeon := run.dungeon
      keyLevel := run.mythic_level
      completionTime := jsRoundDiv run.clear_time_ms 1000
      timerPercent := (run.par_time_ms : ℚ) / (run.clear_time_ms : ℚ) * 100
      score := run.score
      affixes := run.affixes
      timestampMs := run.completed_at_ms
      url := run.url
      clearTimeMs := some run.clear_time_ms
      parTimeMs := some run.par_time_ms }).1
  let deduplicator := deduplicator.markAsSeen run.toApiRun
  if isNewRun then
    let st := updatePlayerRow st playerId (fun p =>
      updatePlayerStats p
        { dungeon := run.dungeon
          keyLevel := run.mythic_level
          clearTimeMs := run.clear_time_ms
          parTimeMs := run.par_time_ms }
        existingRunsForStats)
    (st, deduplicator,
     existingRunsForStats ++
       [{ dungeon := run.dungeon
          keyLevel := run.mythic_level
          timestampMs := run.completed_at_ms
          url := run.url }])
  else (st, deduplicator, existingRunsForStats)

/-- The guild-run detection prologue of `syncPlayer` (lines 333-352):
extract run ids from the recent runs, fetch their details through the
network oracle `runDetailsOf` (modelling `fetchRunDetailsWithRoster`), and
run them through the detector against the module-level cache. -/
def syncGuildDetection (cache : GuildPlayerCache) (st : ServerState)
    (profile : RaiderIOProfile) (runDetailsOf : List Int → List RaiderIORun) :
    ServerState :=
  match profile.mythic_plus_recent_runs with
  | some recentRuns =>
      if recentRuns.length > 0 then
        let runIds := runIdsOf recentRuns
        if runIds.length > 0 then
          let runsWithRoster := runDetailsOf runIds
          if runsWithRoster.length > 0 then
            st.withGuildRunSlice
              (processGuildRuns cache st.guildRunSlice runsWithRoster)
          else st
        else st
      else st
  | none => st

/-- `syncPlayer`: the per-player sync. The upstream profile fetch and the
run-detail fetch are inputs (`profile?`, `runDetailsOf`); `cache` is the
guild-player cache refreshed by the caller before the batch. -/
def syncPlayer (cache : GuildPlayerCache) (st : ServerState) (player : Player)
    (profile? : Option RaiderIOProfile)
    (runDetailsOf : List Int → List RaiderIORun) (nowMs : Int) :
    ServerState × SyncResult :=
  match profile? with
  | none => (st, .failed)
  | some profile =>
      let st := syncGuildDetection cache st profile runDetailsOf
      if !hasPlayerDataChanged player profile then
        (updatePlayerRow st player.id
          (fun p => { p with lastRioSyncMs := some nowMs }), .skipped)
      else
        let st := updatePlayerRow st player.id (fun p =>
          { p with
            mythicScore := profile.scoresAll
            itemLevel := profile.gearItemLevel
            className := profile.classField
            spec := some profile.active_spec_name
            race := some profile.race
            avatarUrl := if truthyStr profile.thumbnail_url then profile.thumbnail_url
              else none
            lastRioSyncMs := some nowMs })
        let bestRuns := profile.mythic_plus_best_runs.getD []
        let recentRuns := profile.mythic_plus_recent_runs.getD []
        let allRuns := mergeRunsByUrl recentRuns bestRuns
        if allRuns.length > 0 then
          let existingRuns := (getMythicRuns st player.id).map
            MythicRunRow.toExistingRun
          let deduplicator := RunDeduplicator.ofExistingRuns existingRuns
          let looped := ((allRuns.take 10).foldl
            (syncRunStep player.id) (st, deduplicator, existingRuns)).1
          ((deleteOldMythicRuns looped player.id 5).1, .updated)
        else (st, .updated)

/-! ## Concrete instances used by counterexamples and witnesses -/

/-- A baseline player row: every optional field null, every counter zero,
active, used as the starting point of concrete scenarios. -/
def basePlayer (id name realm className : String) : Player where
  id := id
  name := name
  realm := realm
  className := className
  spec := none
  race := none
  level := 80
  itemLevel := 0
  mythicScore := 0
  guildRank := "Member"
  avatarUrl := none
  isActive := true
  lastSeenMs := none
  messagesCount := 0
  lastMessage := none
  lastMessageTimeMs := none
  lastRioSyncMs := none
  totalRunsTracked := 0
  mostPlayedDungeon := none
  runsInTime := 0
  runsOverTime := 0
  runsByLevelLow := 0
  runsByLevelMid := 0
  runsByLevelHigh := 0
  runsByLevelElite := 0
  highestKeyLevel := 0

/-- An empty upload payload: every field absent. -/
def emptyUpload : AddonUploadData where
  master_roster := none
  stats := none
  dataField := none
  upload_session_id := none
  is_final_batch := none
  batch_index := none
  total_batches := none
  batch_id := none
  session_phase := none
  sessionPhase := none
  roster_mode := none
  removed_members := none
  roster_summary := none
  reason := none
  rosterMode := none
  removedMembers := none
  rosterSummary := none
  add_update_only := none
  addUpdateOnly := none
  confirm_removals := none
  confirmRemovals := none
  base_roster_hash := none
  baseRosterHash := none

/-- An empty server state over a given realm. -/
def emptyState (realm : String) : ServerState where
  players := []
  mythicRuns := []
  guildRuns := []
  events := []
  snapshots := []
  uploaderStatuses := []
  session :=
    { currentUploadSession := none
      uploadSessionStartedAtMs := none
      uploadSessionProcessedCount := 0
      lastUploadCompletedAtMs := none }
  realm := realm
  nextId := 0

/-- A trivial timezone oracle for concrete scenarios. -/
def tzZero : Int → Int × Int := fun _ => (0, 0)

/-- A concrete mythic-run insert for the run-upsert scenario. -/
def c10r1 : InsertMythicRun where
  playerId := "p"
  dungeon := "Ara-Kara"
  keyLevel := 10
  completionTime := 1500
  timerPercent := 120
  score := 100
  affixes := ["Tyrannical"]
  timestampMs := 1000
  url := some "u1"
  clearTimeMs := some 1500000
  parTimeMs := some 1800000

/-- A second insert with the same player/dungeon/level/day key but a
different URL and a higher score. -/
def c10r2 : InsertMythicRun where
  playerId := "p"
  dungeon := "Ara-Kara"
  keyLevel := 10
  completionTime := 1400
  timerPercent := 128
  score := 150
  affixes := ["Fortified"]
  timestampMs := 5000
  url := some "u2"
  clearTimeMs := some 1400000
  parTimeMs := some 1800000

/-- One player row evolving into another across an upload: the identity
fields are untouched and an active player never becomes inactive. -/
def PlayerEvolves (p q : Player) : Prop :=
  q.id = p.id ∧ q.name = p.name ∧ q.realm = p.realm ∧
  (p.isActive = true → q.isActive = true)

/-- A players table evolving across an upload: every pre-existing row is
still at its position (evolved), and only new rows are appended. -/
def RosterEvolves (l l' : List Player) : Prop :=
  l.length ≤ l'.length ∧
  ∀ (i : Nat) (h : i < l.length) (h' : i < l'.length),
    PlayerEvolves (l.get ⟨i, h⟩) (l'.get ⟨i, h'⟩)

/-- Two concrete active guild players for the guild-run scenario. -/
def c8P1 : Player := basePlayer "1" "Thrall" "Area-52" "Shaman"

def c8P2 : Player := basePlayer "2" "Jaina" "Area-52" "Mage"

/-- The guild-player cache built from the two concrete players. -/
def c8Cache : GuildPlayerCache := refreshGuildPlayerCache [c8P1, c8P2]

/-- An empty guild-run state. -/
def c8St : GuildRunState where
  guildRuns := []
  events := []
  nextId := 0

/-- A concrete fetched run with a three-member roster of which exactly two
resolve to the cached guild players. -/
def c8Run : RaiderIORun where
  dungeon := "Ara-Kara, City of Echoes"
  short_name := "AK"
  mythic_level := 10
  completed_at_ms := 1000
  clear_time_ms := 1500000
  par_time_ms := 1800000
  num_keystone_upgrades := 1
  score := 150
  url := some "https://raider.io/mythic-plus-runs/season-tww-3/123-10-arakara"
  affixes := []
  roster :=
    [{ name := "Thrall", realmSlug := "area-52", realmName := "Area-52",
       className := "Shaman" },
     { name := "Rando", realmSlug := "stormrage", realmName := "Stormrage",
       className := "Druid" },
     { name := "Jaina", realmSlug := "area-52", realmName := "Area-52",
       className := "Mage" }]

/-- A concrete active player for the upload frame scenarios. -/
def c2Player : Player := basePlayer "7" "Bob" "Realm" "Mage"

/-- A server state holding just that player. -/
def c2State : ServerState := { emptyState "Realm" with players := [c2Player] }

/-- A chunk-phase batch upload whose roster omits the stored player. -/
def c2Upload : AddonUploadData :=
  { emptyUpload with
    roster_mode := some RosterMode.full
    session_phase := some SessionPhase.chunk
    master_roster := some [("Foo-Realm",
      { rank := some "Member", lvl := some 80, classField := some "MAGE" })] }

/-- A final-phase upload listing the stored player in `removed_members`
without `confirm_removals` or `base_roster_hash`. -/
def c5Upload : AddonUploadData :=
  { emptyUpload with
    roster_mode := some RosterMode.full
    session_phase := some SessionPhase.final
    removed_members := some ["Bob-Realm"] }

/-- A concrete uploader-status row in mid-session: last accepted batch 0 of
session `s`, expecting batch 1 next. -/
def c3Status : UploaderStatus where
  id := "u0"
  uploaderId := "up"
  status := "processing"
  lastSessionId := some "s"
  lastBatchIndex := some 0
  expectedBatchIndex := some 1
  totalBatches := none
  lastError := none
  lastPhase := some "start"
  updatedAtMs := 0

/-- A server state holding that uploader status. -/
def c3State : ServerState :=
  { emptyState "Realm" with uploaderStatuses := [c3Status], nextId := 1 }

/-- A chunk batch of session `s` arriving with batch_index 3 when 1 is
expected. -/
def c3Upload : AddonUploadData :=
  { emptyUpload with
    roster_mode := some RosterMode.full
    session_phase := some SessionPhase.chunk
    batch_index := some 3
    upload_session_id := some "s" }

/-- The same mid-session uploader state for the resend scenario. -/
def c4State : ServerState :=
  { emptyState "Realm" with uploaderStatuses := [c3Status], nextId := 1 }

/-- The out-of-order chunk batch (index 3, expected 1). -/
def c4Upload1 : AddonUploadData :=
  { emptyUpload with
    roster_mode := some RosterMode.full
    session_phase := some SessionPhase.chunk
    batch_index := some 3
    upload_session_id := some "s" }

/-- The re-sent chunk batch at the advertised expected index 1. -/
def c4Upload2 : AddonUploadData :=
  { emptyUpload with
    roster_mode := some RosterMode.full
    session_phase := some SessionPhase.chunk
    batch_index := some 1
    upload_session_id := some "s" }

/-- A concrete active player targeted by a removal. -/
def c1Player : Player := basePlayer "9" "A" "Realm" "Mage"

/-- A server state holding that player. -/
def c1State : ServerState :=
  { emptyState "Realm" with players := [c1Player], nextId := 1 }

/-- A raw (pre-parse) final-phase upload that lists the player in
`removed_members` and sets `confirm_removals` — the fields the schema does
not declare. -/
def c1Raw : AddonUploadData :=
  { emptyUpload with
    roster_mode := some RosterMode.full
    session_phase := some SessionPhase.final
    removed_members := some ["A-Realm"]
    confirm_removals := some true }

/-- A player whose upstream profile will compare as unchanged. -/
def c6Player : Player :=
  { basePlayer "5" "Syncer" "Realm" "Mage" with
    mythicScore := 100
    itemLevel := 200
    spec := some "Frost"
    race := some "Troll"
    avatarUrl := some "thumb" }

/-- An upstream profile matching the stored player field for field, with
one recent run whose URL is not stored. -/
def c6Profile : RaiderIOProfile where
  scoresAll := 100
  gearItemLevel := 200
  classField := "Mage"
  active_spec_name := "Frost"
  race := "Troll"
  thumbnail_url := some "thumb"
  mythic_plus_best_runs := none
  mythic_plus_recent_runs := some
    [{ dungeon := "Ara-Kara, City of Echoes"
       short_name := "AK"
       mythic_level := 10
       completed_at_ms := 700000
       clear_time_ms := 1500000
       par_time_ms := 1800000
       num_keystone_upgrades := 1
       score := 150
       url := some "https://raider.io/mythic-plus-runs/season-tww-3/999-10-arakara"
       affixes := []
       roster := [] }]

/-- One stored run row for the sync scenario. -/
def c6Run (n : Nat) : MythicRunRow where
  id := toString n
  playerId := "5"
  dungeon := "Ara-Kara, City of Echoes"
  keyLevel := 2 + n
  completionTime := 1500
  timerPercent := 100
  score := 50
  affixes := []
  timestampMs := 86400000 * n
  url := some ("r" ++ toString n)
  clearTimeMs := some 1500000
  parTimeMs := some 1800000

/-- A server state where the player already has six stored runs — one more
than the retention count. -/
def c6State : ServerState :=
  { emptyState "Realm" with
    players := [c6Player]
    mythicRuns := [c6Run 0, c6Run 1, c6Run 2, c6Run 3, c6Run 4, c6Run 5]
    nextId := 10 }

/-! # Theorems -/

/-! ## Frame machinery: roster evolution across an upload -/

theorem playerEvolves_refl (p : Player) : PlayerEvolves p p :=
  ⟨rfl, rfl, rfl, fun h => h⟩

theorem playerEvolves_trans {p q r : Player} (h1 : PlayerEvolves p q)
    (h2 : PlayerEvolves q r) : PlayerEvolves p r :=
  ⟨h2.1.trans h1.1, h2.2.1.trans h1.2.1, h2.2.2.1.trans h1.2.2.1,
   fun h => h2.2.2.2 (h1.2.2.2 h)⟩

theorem rosterEvolves_refl (l : List Player) : RosterEvolves l l :=
  ⟨le_refl _, fun _ _ _ => playerEvolves_refl _⟩

theorem rosterEvolves_of_eq {l l' : List Player} (h : l = l') :
    RosterEvolves l l' := h ▸ rosterEvolves_refl l

theorem rosterEvolves_trans {l₁ l₂ l₃ : List Player}
    (h12 : RosterEvolves l₁ l₂) (h23 : RosterEvolves l₂ l₃) :
    RosterEvolves l₁ l₃ :=
  ⟨le_trans h12.1 h23.1, fun i h h' =>
    playerEvolves_trans (h12.2 i h (lt_of_lt_of_le h h12.1))
      (h23.2 i (lt_of_lt_of_le h h12.1) h')⟩

theorem rosterEvolves_map (l : List Player) (f : Player → Player)
    (hf : ∀ p, PlayerEvolves p (f p)) : RosterEvolves l (l.map f) :=
  ⟨by simp, fun i h h' => by
    have hm : (l.map f).get ⟨i, h'⟩ = f (l.get ⟨i, h⟩) := by
      simp [List.get_eq_getElem, List.getElem_map]
    rw [hm]; exact hf _⟩

theorem rosterEvolves_append (l extra : List Player) :
    RosterEvolves l (l ++ extra) :=
  ⟨by simp, fun i h h' => by
    have hm : (l ++ extra).get ⟨i, h'⟩ = l.get ⟨i, h⟩ := by
      simp [List.get_eq_getElem, List.getElem_append_left h]
    rw [hm]; exact playerEvolves_refl _⟩

/-- Generic fold lemma: a fold whose every step evolves the roster evolves
the roster. -/
theorem rosterEvolves_foldl {σ α : Type} (proj : σ → ServerState)
    (step : σ → α → σ)
    (hstep : ∀ s x, RosterEvolves (proj s).players (proj (step s x)).players) :
    ∀ (l : List α) (s : σ),
      RosterEvolves (proj s).players (proj (l.foldl step s)).players := by
  intro l
  induction l with
  | nil => intro s; exact rosterEvolves_refl _
  | cons x xs ih =>
      intro s
      exact rosterEvolves_trans (hstep s x) (ih (step s x))

/-! ## Per-operation frame lemmas -/

theorem updatePlayerRow_evolves (st : ServerState) (id : String)
    (f : Player → Player) (hf : ∀ p, PlayerEvolves p (f p)) :
    RosterEvolves st.players (updatePlayerRow st id f).players := by
  unfold updatePlayerRow
  refine rosterEvolves_map _ _ (fun p => ?_)
  by_cases h : p.id = id
  · simp only [if_pos h]; exact hf p
  · simp only [if_neg h]; exact playerEvolves_refl p

theorem applyTo_evolves (d : UpsertPlayerData) (hd : d.isActive ≠ some false)
    (p : Player) : PlayerEvolves p (d.applyTo p) := by
  refine ⟨rfl, rfl, rfl, fun h => ?_⟩
  unfold UpsertPlayerData.applyTo
  cases hia : d.isActive with
  | none => simpa [hia] using h
  | some b =>
      cases b with
      | false => exact absurd hia hd
      | true => simp [hia]

theorem upsertPlayer_evolves (st : ServerState) (d : UpsertPlayerData)
    (hd : d.isActive ≠ some false) :
    RosterEvolves st.players (upsertPlayer st d).1.players := by
  unfold upsertPlayer
  cases hfind : getPlayerByName st d.name d.realm with
  | none =>
      dsimp only
      unfold createPlayerFromUpsert
      exact rosterEvolves_append _ _
  | some existing =>
      dsimp only
      by_cases hu : d.hasUpdates = true
      · rw [if_pos hu]
        exact updatePlayerRow_evolves _ _ _ (applyTo_evolves d hd)
      · rw [if_neg hu]
        exact rosterEvolves_refl _

theorem updatePlayerLastSeen_evolves (st : ServerState) (name realm : String)
    (ms : Int) :
    RosterEvolves st.players (updatePlayerLastSeen st name realm ms).players := by
  unfold updatePlayerLastSeen
  cases hfind : getPlayerByName st name realm with
  | none => exact rosterEvolves_refl _
  | some existing =>
      exact updatePlayerRow_evolves _ _ _ (fun p => ⟨rfl, rfl, rfl, fun h => h⟩)

theorem createActivitySnapshot_players (st : ServerState)
    (a b c d : Int) : (createActivitySnapshot st a b c d).players = st.players := by
  unfold createActivitySnapshot
  split <;> rfl

theorem processSnapshotOnline_evolves (st : ServerState) (defaultRealm : String)
    (ms : Int) (online : List (String × OnlinePlayerInfo)) :
    RosterEvolves st.players
      (processSnapshotOnline st defaultRealm ms online).players := by
  unfold processSnapshotOnline
  refine rosterEvolves_foldl (fun s : ServerState => s) _ (fun s x => ?_) online st
  dsimp only
  refine rosterEvolves_trans
    (updatePlayerLastSeen_evolves s (parsePlayerName x.1 defaultRealm).1
      (parsePlayerName x.1 defaultRealm).2 ms) ?_
  split
  · exact upsertPlayer_evolves _ _ (by simp)
  · exact rosterEvolves_refl _

theorem processStats_evolves (tz : Int → Int × Int) (st : ServerState)
    (defaultRealm : String) (stats : List StatsSnapshotData) :
    RosterEvolves st.players
      (processStats tz st defaultRealm stats).1.players := by
  unfold processStats
  refine rosterEvolves_foldl (fun s : ServerState × Nat => s.1) _
    (fun s x => ?_) stats (st, 0)
  dsimp only
  split
  · exact rosterEvolves_refl _
  · next ms heq =>
      refine rosterEvolves_trans (rosterEvolves_of_eq
        (createActivitySnapshot_players s.1 ms x.onlineCount
          (if (tz ms).1 = 0 then 6 else (tz ms).1 - 1) (tz ms).2).symm) ?_
      exact processSnapshotOnline_evolves _ _ _ _

theorem processChatEntry_evolves (st : ServerState) (defaultRealm : String)
    (fullName : String) (chatEntry : ChatDataEntry) :
    RosterEvolves st.players
      (processChatEntry st defaultRealm fullName chatEntry).1.players := by
  unfold processChatEntry
  dsimp only
  split
  · exact rosterEvolves_refl _
  · repeat' split
    all_goals
      first
        | exact updatePlayerRow_evolves _ _ _ (fun p => ⟨rfl, rfl, rfl, fun h => h⟩)
        | exact rosterEvolves_refl _

theorem processChatData_evolves (st : ServerState) (defaultRealm : String)
    (entries : List (String × ChatDataEntry)) :
    RosterEvolves st.players
      (processChatData st defaultRealm entries).1.players := by
  unfold processChatData
  refine rosterEvolves_foldl (fun s : ServerState × Nat => s.1) _
    (fun s x => ?_) entries (st, 0)
  dsimp only
  exact processChatEntry_evolves _ _ _ _

theorem clearUploadSession_players (st : ServerState) (now : Int) :
    (clearUploadSession st now).players = st.players := rfl

theorem startUploadSession_players (st : ServerState) (sid : String) (now : Int) :
    (startUploadSession st sid now).players = st.players := rfl

theorem incrementUploadProcessedCount_players (st : ServerState) (c : Int) :
    (incrementUploadProcessedCount st c).players = st.players := rfl

theorem ensureUploaderStatus_players (st : ServerState) (uid : String) (now : Int) :
    (ensureUploaderStatus st uid now).1.players = st.players := by
  unfold ensureUploaderStatus
  split <;> rfl

theorem updateUploaderStatus_players (st : ServerState) (uid : String)
    (u : UploaderStatusUpdate) (now : Int) :
    (updateUploaderStatus st uid u now).1.players = st.players := by
  unfold updateUploaderStatus
  dsimp only
  exact ensureUploaderStatus_players st uid now

theorem markUploaderOutOfOrder_players (st : ServerState) (uid : String)
    (e : Int) (r : Option Int) (sid : Option String) (tb : Option Int)
    (ph : Option String) (now : Int) :
    (markUploaderOutOfOrder st uid e r sid tb ph now).1.players = st.players := by
  unfold markUploaderOutOfOrder
  exact updateUploaderStatus_players _ _ _ _

theorem sessionResetApply_players (st : ServerState) (s0 : UploaderStatus)
    (data : AddonUploadData) (uid : String) (now : Int) :
    (sessionResetApply st s0 data uid now).1.players = st.players := by
  unfold sessionResetApply
  split
  · split
    · exact updateUploaderStatus_players _ _ _ _
    · rfl
  · rfl

theorem finalStatusUpdate_players (st : ServerState) (data : AddonUploadData)
    (uid : String) (sid : Option String) (now : Int) :
    (finalStatusUpdate st data uid sid now).players = st.players := by
  unfold finalStatusUpdate
  dsimp only
  split
  · split
    · exact updateUploaderStatus_players _ _ _ _
    · rfl
  · split
    · exact updateUploaderStatus_players _ _ _ _
    · rfl

theorem upsertRosterPlayers_evolves (st : ServerState)
    (roster : Option (List (String × RosterEntry))) (defaultRealm : String) :
    RosterEvolves st.players
      (upsertRosterPlayers st roster defaultRealm).1.players := by
  unfold upsertRosterPlayers
  split
  · exact rosterEvolves_refl _
  · refine rosterEvolves_foldl (fun s : ServerState × Nat => s.1) _
      (fun s x => ?_) _ (st, 0)
    dsimp only
    exact upsertPlayer_evolves _ _ (by simp)

/-- In every mode except legacy, roster processing with a passing phase or a
failed removal guard never deactivates a player. -/
theorem processRoster_evolves (st : ServerState) (data : AddonUploadData)
    (defaultRealm : String) (now : Int)
    (hmode : (rosterModeOf data).isSome)
    (hsafe : rosterModeOf data = some RosterMode.no_change ∨
      sessionPhaseOf data = some SessionPhase.start ∨
      sessionPhaseOf data = some SessionPhase.chunk ∨
      removalGuardPassed data = false) :
    RosterEvolves st.players (processRoster st data defaultRealm now).1.players := by
  unfold processRoster
  dsimp only
  cases hm : rosterModeOf data with
  | none => rw [hm] at hmode; simp at hmode
  | some m =>
      cases m with
      | no_change =>
          exact rosterEvolves_of_eq (clearUploadSession_players _ _).symm
      | delta =>
          cases hp : sessionPhaseOf data with
          | none =>
              have hguard : removalGuardPassed data = false := by
                rcases hsafe with h | h | h | h
                · rw [hm] at h; exact absurd h (by simp)
                · rw [hp] at h; exact absurd h (by simp)
                · rw [hp] at h; exact absurd h (by simp)
                · exact h
              dsimp only
              have hguard2 : ¬(removalGuardPassed data = true) := by
                rw [hguard]; simp
              rw [if_neg hguard2]
              split
              · refine rosterEvolves_trans
                  (upsertRosterPlayers_evolves st data.master_roster defaultRealm) ?_
                exact rosterEvolves_of_eq (clearUploadSession_players _ _).symm
              · exact upsertRosterPlayers_evolves _ _ _
          | some ph =>
              cases ph with
              | start =>
                  refine rosterEvolves_trans (rosterEvolves_of_eq ?_)
                    (upsertRosterPlayers_evolves _ _ _)
                  split
                  · split
                    · exact (startUploadSession_players _ _ _).symm
                    · rfl
                  · rfl
              | chunk => exact upsertRosterPlayers_evolves _ _ _
              | final =>
                  have hguard : removalGuardPassed data = false := by
                    rcases hsafe with h | h | h | h
                    · rw [hm] at h; exact absurd h (by simp)
                    · rw [hp] at h; exact absurd h (by simp)
                    · rw [hp] at h; exact absurd h (by simp)
                    · exact h
                  dsimp only
                  have hguard2 : ¬(removalGuardPassed data = true) := by
                    rw [hguard]; simp
                  rw [if_neg hguard2]
                  refine rosterEvolves_trans
                    (upsertRosterPlayers_evolves st data.master_roster defaultRealm) ?_
                  exact rosterEvolves_of_eq (clearUploadSession_players _ _).symm
      | full =>
          cases hp : sessionPhaseOf data with
          | none =>
              have hguard : removalGuardPassed data = false := by
                rcases hsafe with h | h | h | h
                · rw [hm] at h; exact absurd h (by simp)
                · rw [hp] at h; exact absurd h (by simp)
                · rw [hp] at h; exact absurd h (by simp)
                · exact h
              dsimp only
              have hguard2 : ¬(removalGuardPassed data = true) := by
                rw [hguard]; simp
              rw [if_neg hguard2]
              split
              · refine rosterEvolves_trans
                  (upsertRosterPlayers_evolves st data.master_roster defaultRealm) ?_
                exact rosterEvolves_of_eq (clearUploadSession_players _ _).symm
              · exact upsertRosterPlayers_evolves _ _ _
          | some ph =>
              cases ph with
              | start =>
                  refine rosterEvolves_trans (rosterEvolves_of_eq ?_)
                    (upsertRosterPlayers_evolves _ _ _)
                  split
                  · split
                    · exact (startUploadSession_players _ _ _).symm
                    · rfl
                  · rfl
              | chunk => exact upsertRosterPlayers_evolves _ _ _
              | final =>
                  have hguard : removalGuardPassed data = false := by
                    rcases hsafe with h | h | h | h
                    · rw [hm] at h; exact absurd h (by simp)
                    · rw [hp] at h; exact absurd h (by simp)
                    · rw [hp] at h; exact absurd h (by simp)
                    · exact h
                  dsimp only
                  have hguard2 : ¬(removalGuardPassed data = true) := by
                    rw [hguard]; simp
                  rw [if_neg hguard2]
                  refine rosterEvolves_trans
                    (upsertRosterPlayers_evolves st data.master_roster defaultRealm) ?_
                  exact rosterEvolves_of_eq (clearUploadSession_players _ _).symm

/-- The whole upload handler, in every mode except legacy and with a passing
phase or a failed removal guard, never deactivates a player. -/
theorem handleUpload_evolves (tz : Int → Int × Int) (now : Int) (uid : String)
    (st0 : ServerState) (data : AddonUploadData)
    (hmode : (rosterModeOf data).isSome)
    (hsafe : rosterModeOf data = some RosterMode.no_change ∨
      sessionPhaseOf data = some SessionPhase.start ∨
      sessionPhaseOf data = some SessionPhase.chunk ∨
      removalGuardPassed data = false) :
    RosterEvolves st0.players (handleUpload tz now uid st0 data).1.players := by
  unfold handleUpload
  dsimp only
  generalize (if st0.realm = "" then "Unknown" else st0.realm) = D
  have hpre : (sessionResetApply (ensureUploaderStatus st0 uid now).1
      (ensureUploaderStatus st0 uid now).2 data uid now).1.players = st0.players := by
    rw [sessionResetApply_players, ensureUploaderStatus_players]
  split
  · refine rosterEvolves_of_eq ?_
    rw [markUploaderOutOfOrder_players, hpre]
  · split
    · exact rosterEvolves_of_eq hpre.symm
    · have hcore : RosterEvolves st0.players
          (processRoster (sessionResetApply (ensureUploaderStatus st0 uid now).1
            (ensureUploaderStatus st0 uid now).2 data uid now).1 data D now).1.players :=
        rosterEvolves_trans (rosterEvolves_of_eq hpre.symm)
          (processRoster_evolves _ _ _ _ hmode hsafe)
      rw [finalStatusUpdate_players]
      cases hdf : data.dataField with
      | none =>
          dsimp only
          cases hst : data.stats with
          | none =>
              dsimp only
              split
              · rw [incrementUploadProcessedCount_players]; exact hcore
              · exact hcore
          | some stats =>
              dsimp only
              refine rosterEvolves_trans ?_ (processStats_evolves _ _ _ _)
              split
              · rw [incrementUploadProcessedCount_players]; exact hcore
              · exact hcore
      | some entries =>
          dsimp only
          refine rosterEvolves_trans ?_ (processChatData_evolves _ _ _)
          cases hst : data.stats with
          | none =>
              dsimp only
              split
              · rw [incrementUploadProcessedCount_players]; exact hcore
              · exact hcore
          | some stats =>
              dsimp only
              refine rosterEvolves_trans ?_ (processStats_evolves _ _ _ _)
              split
              · rw [incrementUploadProcessedCount_players]; exact hcore
              · exact hcore

theorem find?_cons_pos {α : Type} (pred : α → Bool) (a : α) (l : List α)
    (h : pred a = true) : (a :: l).find? pred = some a := by
  simp [List.find?, h]

theorem find?_cons_neg {α : Type} (pred : α → Bool) (a : α) (l : List α)
    (h : pred a = false) : (a :: l).find? pred = l.find? pred := by
  simp [List.find?, h]

/-- Transport of a natural-key lookup along roster evolution: the first row
matching a name-realm key evolves in place, so the post-state lookup finds
its evolved version (same id, still active if it was). -/
theorem rosterEvolves_find_active {l l' : List Player} (h : RosterEvolves l l')
    (name realm : String) (p : Player)
    (hfind : l.find? (fun q => q.name = name && q.realm = realm) = some p)
    (hactive : p.isActive = true) :
    ∃ q, l'.find? (fun q => q.name = name && q.realm = realm) = some q ∧
      q.isActive = true ∧ q.id = p.id := by
  induction l generalizing l' with
  | nil => simp at hfind
  | cons a l₁ ih =>
      cases l' with
      | nil =>
          have := h.1
          simp at this
      | cons b l₁' =>
          have hab : PlayerEvolves a b := h.2 0 (by simp) (by simp)
          have htail : RosterEvolves l₁ l₁' := by
            refine ⟨?_, fun i hi hi' => ?_⟩
            · have := h.1; simpa using this
            · exact h.2 (i + 1) (by simpa using hi) (by simpa using hi')
          by_cases hpa : (a.name = name && a.realm = realm) = true
          · rw [find?_cons_pos (fun q => q.name = name && q.realm = realm)
              a l₁ hpa] at hfind
            have hap : a = p := by injection hfind
            have hpb : (b.name = name && b.realm = realm) = true := by
              rw [hab.2.1, hab.2.2.1]
              exact hpa
            refine ⟨b, ?_, ?_, by rw [hab.1, hap]⟩
            · rw [find?_cons_pos (fun q => q.name = name && q.realm = realm)
                b l₁' hpb]
            · exact hab.2.2.2 (by rw [hap]; exact hactive)
          · have hpa0 : ((fun (q : Player) => q.name = name && q.realm = realm) a) = false := by
              simpa using hpa
            rw [find?_cons_neg (fun q => q.name = name && q.realm = realm)
              a l₁ hpa0] at hfind
            have hpb0 : ((fun (q : Player) => q.name = name && q.realm = realm) b) = false := by
              simp only []
              rw [hab.2.1, hab.2.2.1]
              simpa using hpa
            obtain ⟨q, hq1, hq2, hq3⟩ := ih htail hfind
            refine ⟨q, ?_, hq2, hq3⟩
            rw [find?_cons_neg (fun q => q.name = name && q.realm = realm)
              b l₁' hpb0]
            exact hq1

/-- When the removal guard fails, roster processing removes nobody. -/
theorem processRoster_removed_zero (st : ServerState) (data : AddonUploadData)
    (defaultRealm : String) (now : Int)
    (hguard : removalGuardPassed data = false) :
    (processRoster st data defaultRealm now).2.2 = 0 := by
  have hguard2 : ¬(removalGuardPassed data = true) := by rw [hguard]; simp
  unfold processRoster
  dsimp only
  cases hm : rosterModeOf data with
  | none => rfl
  | some m =>
      cases m with
      | no_change => rfl
      | delta =>
          cases hp : sessionPhaseOf data with
          | none =>
              dsimp only
              rw [if_neg hguard2]
          | some ph => cases ph <;> simp [if_neg hguard2]
      | full =>
          cases hp : sessionPhaseOf data with
          | none =>
              dsimp only
              rw [if_neg hguard2]
          | some ph => cases ph <;> simp [if_neg hguard2]

/-- C2: a `chunk`-phase batch upload (roster_mode `delta`/`full`) never
deactivates any player: every player who was active before the upload —
in particular one absent from the batch's `master_roster` — is still
active (same row id) afterwards. -/
theorem claim_c2_chunk_no_deactivation (tz : Int → Int × Int) (now : Int)
    (uid : String) (st : ServerState) (data : AddonUploadData) (m : RosterMode)
    (hmode : rosterModeOf data = some m) (hm : m ≠ RosterMode.no_change)
    (hphase : sessionPhaseOf data = some SessionPhase.chunk)
    (name realm : String) (p : Player)
    (hfind : getPlayerByName st name realm = some p)
    (hactive : p.isActive = true) :
    ∃ q, getPlayerByName (handleUpload tz now uid st data).1 name realm = some q ∧
      q.isActive = true ∧ q.id = p.id := by
  have hev := handleUpload_evolves tz now uid st data
    (by rw [hmode]; rfl) (Or.inr (Or.inr (Or.inl hphase)))
  exact rosterEvolves_find_active hev name realm p hfind hactive

/-- C5: a final-phase upload listing removed members but supplying neither
`confirm_removals` nor `base_roster_hash` (or setting `add_update_only`)
skips the removal: every previously active player — in particular each one
listed in `removed_members` — is still active afterwards, and a successful
response reports zero removals. -/
theorem claim_c5_removal_guard (tz : Int → Int × Int) (now : Int)
    (uid : String) (st : ServerState) (data : AddonUploadData) (m : RosterMode)
    (hmode : rosterModeOf data = some m) (hm : m ≠ RosterMode.no_change)
    (hphase : sessionPhaseOf data = some SessionPhase.final)
    (hguard : (data.confirm_removals = none ∧ data.confirmRemovals = none ∧
               data.base_roster_hash = none ∧ data.baseRosterHash = none) ∨
              addUpdateOnlyOf data = true)
    (name realm : String) (p : Player)
    (hfind : getPlayerByName st name realm = some p)
    (hactive : p.isActive = true) :
    (∃ q, getPlayerByName (handleUpload tz now uid st data).1 name realm = some q ∧
       q.isActive = true ∧ q.id = p.id) ∧
    (∀ a b c d : Nat, (handleUpload tz now uid st data).2 =
        UploadResponse.success a b c d → b = 0) := by
  have hg : removalGuardPassed data = false := by
    rcases hguard with ⟨h1, h2, h3, h4⟩ | h
    · simp [removalGuardPassed, confirmRemovalsOf, baseRosterHashOf,
        truthyStr, h1, h2, h3, h4]
    · simp [removalGuardPassed, h]
  constructor
  · have hev := handleUpload_evolves tz now uid st data
      (by rw [hmode]; rfl) (Or.inr (Or.inr (Or.inr hg)))
    exact rosterEvolves_find_active hev name realm p hfind hactive
  · intro a b c d hresp
    unfold handleUpload at hresp
    dsimp only at hresp
    split at hresp
    · simp at hresp
    · split at hresp
      · simp at hresp
      · have hb : b = (processRoster (sessionResetApply
            (ensureUploaderStatus st uid now).1 (ensureUploaderStatus st uid now).2
            data uid now).1 data (if st.realm = "" then "Unknown" else st.realm)
            now).2.2 := by
          injection hresp with h1 h2 h3 h4
          exact h2.symm
        rw [hb, processRoster_removed_zero _ _ _ _ hg]

/-- Witness for C2: a concrete chunk batch omitting the stored active
player leaves them active. -/
theorem claim_c2_chunk_no_deactivation_witness :
    (rosterModeOf c2Upload = some RosterMode.full ∧
     sessionPhaseOf c2Upload = some SessionPhase.chunk ∧
     getPlayerByName c2State "Bob" "Realm" = some c2Player ∧
     c2Player.isActive = true) ∧
    (∃ q, getPlayerByName (handleUpload tzZero 0 "up" c2State c2Upload).1
        "Bob" "Realm" = some q ∧ q.isActive = true ∧ q.id = c2Player.id) :=
  ⟨⟨rfl, rfl, by decide, rfl⟩,
   claim_c2_chunk_no_deactivation tzZero 0 "up" c2State c2Upload
     RosterMode.full rfl (by decide) rfl "Bob" "Realm" c2Player (by decide) rfl⟩

/-- Witness for C5: a concrete final-phase upload listing the stored active
player in `removed_members` without the guard fields leaves them active and
reports zero removals. -/
theorem claim_c5_removal_guard_witness :
    (rosterModeOf c5Upload = some RosterMode.full ∧
     sessionPhaseOf c5Upload = some SessionPhase.final ∧
     c5Upload.confirm_removals = none ∧ c5Upload.base_roster_hash = none ∧
     getPlayerByName c2State "Bob" "Realm" = some c2Player ∧
     c2Player.isActive = true) ∧
    ((∃ q, getPlayerByName (handleUpload tzZero 0 "up" c2State c5Upload).1
        "Bob" "Realm" = some q ∧ q.isActive = true ∧ q.id = c2Player.id) ∧
     (∀ a b c d : Nat, (handleUpload tzZero 0 "up" c2State c5Upload).2 =
        UploadResponse.success a b c d → b = 0)) :=
  ⟨⟨rfl, rfl, rfl, rfl, by decide, rfl⟩,
   claim_c5_removal_guard tzZero 0 "up" c2State c5Upload
     RosterMode.full rfl (by decide) rfl (Or.inl ⟨rfl, rfl, rfl, rfl⟩)
     "Bob" "Realm" c2Player (by decide) rfl⟩

/-! ## Uploader-status lookup lemmas -/

theorem find?_uploader_update (l : List UploaderStatus) (uid : String)
    (m upd : UploaderStatus)
    (hm : l.find? (fun s => s.uploaderId = uid) = some m)
    (hupd : upd.uploaderId = m.uploaderId) :
    (l.map (fun s => if s.id = m.id then upd else s)).find?
      (fun s => s.uploaderId = uid) = some upd := by
  induction l with
  | nil => simp at hm
  | cons a l ih =>
      by_cases hpa : a.uploaderId = uid
      · rw [find?_cons_pos (fun s => s.uploaderId = uid) a l (by simp [hpa])] at hm
        have ham : a = m := by injection hm
        subst ham
        dsimp only [List.map]
        rw [if_pos rfl]
        apply find?_cons_pos
        simp [hupd, hpa]
      · have hpa0 : decide (a.uploaderId = uid) = false := by
          simp [hpa]
        rw [find?_cons_neg (fun s => s.uploaderId = uid) a l hpa0] at hm
        have hmuid : m.uploaderId = uid := by
          simpa using List.find?_some hm
        dsimp only [List.map]
        by_cases hid : a.id = m.id
        · rw [if_pos hid]
          apply find?_cons_pos
          simp [hupd, hmuid]
        · rw [if_neg hid]
          rw [find?_cons_neg (fun s => s.uploaderId = uid) a _ hpa0]
          exact ih hm

theorem find?_uploader_append_update (l : List UploaderStatus) (uid : String)
    (fresh upd : UploaderStatus)
    (hnone : l.find? (fun s => s.uploaderId = uid) = none)
    (hfresh : fresh.uploaderId = uid)
    (hupd : upd.uploaderId = fresh.uploaderId) :
    ((l ++ [fresh]).map (fun s => if s.id = fresh.id then upd else s)).find?
      (fun s => s.uploaderId = uid) = some upd := by
  induction l with
  | nil =>
      dsimp only [List.nil_append, List.map]
      rw [if_pos rfl]
      apply find?_cons_pos
      simp [hupd, hfresh]
  | cons a l ih =>
      have hpa : ¬ a.uploaderId = uid := by
        have := List.find?_eq_none.mp hnone a (by simp)
        simpa using this
      have hpa0 : decide (a.uploaderId = uid) = false := by
        simp [hpa]
      have hl : l.find? (fun s => s.uploaderId = uid) = none := by
        rw [find?_cons_neg (fun s => s.uploaderId = uid) a l hpa0] at hnone
        exact hnone
      dsimp only [List.cons_append, List.map]
      by_cases hid : a.id = fresh.id
      · rw [if_pos hid]
        apply find?_cons_pos
        simp [hupd, hfresh]
      · rw [if_neg hid]
        rw [find?_cons_neg (fun s => s.uploaderId = uid) a _ hpa0]
        exact ih hl

/-- The uploader-status row found after `updateUploaderStatus` is the
ensured row with the update applied. -/
theorem updateUploaderStatus_find (st : ServerState) (uid : String)
    (u : UploaderStatusUpdate) (now : Int) :
    (updateUploaderStatus st uid u now).1.uploaderStatuses.find?
      (fun s => s.uploaderId = uid) =
    some (applyStatusUpdate (ensureUploaderStatus st uid now).2 u now) := by
  unfold updateUploaderStatus ensureUploaderStatus
  cases hf : st.uploaderStatuses.find? (fun s => s.uploaderId = uid) with
  | some m =>
      dsimp only
      exact find?_uploader_update _ _ _ _ hf rfl
  | none =>
      dsimp only
      exact find?_uploader_append_update _ _ _ _ hf rfl rfl

/-- C3: a batched upload whose `batch_index` differs from the expected
index (0 on the `start` phase, else the stored last index + 1, after the
session-reset step) is rejected with a conflict carrying the expected and
received indices, no player row is created or modified, and the uploader's
status records `out_of_order` with both indices. -/
theorem claim_c3_batch_order_rejection (tz : Int → Int × Int) (now : Int)
    (uid : String) (st0 : ServerState) (data : AddonUploadData)
    (ph : SessionPhase) (b e : Int)
    (hbatched : isBatchedUpload data = true)
    (hph : sessionPhaseOf data = some ph)
    (hbi : data.batch_index = some b)
    (he : e = expectedIndexOf ph
      (sessionResetApply (ensureUploaderStatus st0 uid now).1
        (ensureUploaderStatus st0 uid now).2 data uid now).2)
    (hne : b ≠ e) :
    (handleUpload tz now uid st0 data).2 =
      UploadResponse.conflict e (some b) ∧
    (handleUpload tz now uid st0 data).1.players = st0.players ∧
    (∃ s, (handleUpload tz now uid st0 data).1.uploaderStatuses.find?
        (fun x => x.uploaderId = uid) = some s ∧
      s.status = "out_of_order" ∧
      s.expectedBatchIndex = some e ∧
      s.lastBatchIndex = some b ∧
      s.lastError = some ("Out-of-order batch (expected " ++ toString e ++
        ", received " ++ toString b ++ ")")) := by
  unfold handleUpload
  dsimp only
  rw [hbatched, hph, hbi]
  rw [if_pos rfl]
  dsimp only
  rw [← he, if_pos hne]
  dsimp only
  refine ⟨rfl, ?_, ?_⟩
  · rw [markUploaderOutOfOrder_players, sessionResetApply_players,
      ensureUploaderStatus_players]
  · unfold markUploaderOutOfOrder
    dsimp only
    refine ⟨_, updateUploaderStatus_find _ _ _ _, rfl, rfl, rfl, ?_⟩
    simp [applyStatusUpdate, toString]

/-- Witness for C3: the concrete chunk batch with index 3 against an
uploader expecting 1 is rejected recording expected=1, received=3. -/
theorem claim_c3_batch_order_rejection_witness :
    (isBatchedUpload c3Upload = true ∧
     sessionPhaseOf c3Upload = some SessionPhase.chunk ∧
     c3Upload.batch_index = some 3 ∧
     (1 : Int) = expectedIndexOf SessionPhase.chunk
       (sessionResetApply (ensureUploaderStatus c3State "up" 100).1
         (ensureUploaderStatus c3State "up" 100).2 c3Upload "up" 100).2 ∧
     (3 : Int) ≠ 1) ∧
    ((handleUpload tzZero 100 "up" c3State c3Upload).2 =
       UploadResponse.conflict 1 (some 3) ∧
     (handleUpload tzZero 100 "up" c3State c3Upload).1.players =
       c3State.players ∧
     (∃ s, (handleUpload tzZero 100 "up" c3State c3Upload).1.uploaderStatuses.find?
         (fun x => x.uploaderId = "up") = some s ∧
       s.status = "out_of_order" ∧
       s.expectedBatchIndex = some 1 ∧
       s.lastBatchIndex = some 3 ∧
       s.lastError = some ("Out-of-order batch (expected " ++ toString (1 : Int) ++
         ", received " ++ toString (3 : Int) ++ ")"))) :=
  ⟨⟨rfl, rfl, rfl, by decide, by decide⟩,
   claim_c3_batch_order_rejection tzZero 100 "up" c3State c3Upload
     SessionPhase.chunk 3 1 rfl rfl rfl (by decide) (by decide)⟩

/-- C4 (code bug): after the rejection with expected=1 / received=3,
`markUploaderOutOfOrder` has overwritten `lastBatchIndex` with the received
index 3, so the re-sent chunk carrying the advertised expected index 1 is
rejected again — now with expected=4 — instead of being accepted. -/
theorem claim_c4_resend_rejected :
    ((handleUpload tzZero 100 "up" c4State c4Upload1).2 =
       UploadResponse.conflict 1 (some 3)) ∧
    ((handleUpload tzZero 200 "up"
        (handleUpload tzZero 100 "up" c4State c4Upload1).1 c4Upload2).2 =
       UploadResponse.conflict 4 (some 1)) :=
  ⟨by decide, by decide⟩

/-- C1 (code bug): `addonUploadSchema` does not declare `confirm_removals`
(nor `add_update_only`/`base_roster_hash`) and a zod object schema strips
unknown keys, so the parsed payload never carries them and the removal
guard never passes: the final-phase upload listing active player A in
`removed_members` with `confirm_removals = true` leaves A active and
reports zero removals. -/
theorem claim_c1_removals_dead :
    (c1Raw.confirm_removals = some true ∧
     (parseAddonUpload c1Raw).confirm_removals = none ∧
     removalGuardPassed (parseAddonUpload c1Raw) = false) ∧
    ((uploadEndpoint tzZero 100 "up" c1State c1Raw).1.players =
       c1State.players ∧
     getPlayerByName (uploadEndpoint tzZero 100 "up" c1State c1Raw).1
       "A" "Realm" = some c1Player ∧
     c1Player.isActive = true ∧
     (uploadEndpoint tzZero 100 "up" c1State c1Raw).2 =
       UploadResponse.success 0 0 0 0) := by
  exact ⟨⟨rfl, rfl, rfl⟩, by decide, by decide, rfl, by decide⟩

/-! ## Sync-pipeline preservation lemmas -/

theorem foldl_preserves {σ α γ : Type} (proj : σ → γ) (step : σ → α → σ)
    (hstep : ∀ s x, proj (step s x) = proj s) :
    ∀ (l : List α) (s : σ), proj (l.foldl step s) = proj s := by
  intro l
  induction l with
  | nil => intro s; rfl
  | cons x xs ih => intro s; rw [List.foldl_cons, ih, hstep]

theorem upsertMythicRun_guildRuns (st : ServerState) (r : InsertMythicRun) :
    (upsertMythicRun st r).1.guildRuns = st.guildRuns := by
  unfold upsertMythicRun
  split
  · split <;> rfl
  · rfl

theorem upsertMythicRun_events (st : ServerState) (r : InsertMythicRun) :
    (upsertMythicRun st r).1.events = st.events := by
  unfold upsertMythicRun
  split
  · split <;> rfl
  · rfl

theorem deleteOldMythicRuns_guildRuns (st : ServerState) (pid : String)
    (k : Nat) : (deleteOldMythicRuns st pid k).1.guildRuns = st.guildRuns := by
  unfold deleteOldMythicRuns
  dsimp only
  split <;> rfl

theorem deleteOldMythicRuns_events (st : ServerState) (pid : String)
    (k : Nat) : (deleteOldMythicRuns st pid k).1.events = st.events := by
  unfold deleteOldMythicRuns
  dsimp only
  split <;> rfl

theorem syncRunStep_guildRuns (pid : String)
    (acc : ServerState × RunDeduplicator × List ExistingRun)
    (run : RaiderIORun) :
    (syncRunStep pid acc run).1.guildRuns = acc.1.guildRuns := by
  unfold syncRunStep
  dsimp only
  split
  · exact upsertMythicRun_guildRuns _ _
  · exact upsertMythicRun_guildRuns _ _

theorem syncRunStep_events (pid : String)
    (acc : ServerState × RunDeduplicator × List ExistingRun)
    (run : RaiderIORun) :
    (syncRunStep pid acc run).1.events = acc.1.events := by
  unfold syncRunStep
  dsimp only
  split
  · exact upsertMythicRun_events _ _
  · exact upsertMythicRun_events _ _

theorem syncGuildDetection_mythicRuns (cache : GuildPlayerCache)
    (st : ServerState) (profile : RaiderIOProfile)
    (runDetailsOf : List Int → List RaiderIORun) :
    (syncGuildDetection cache st profile runDetailsOf).mythicRuns =
      st.mythicRuns := by
  unfold syncGuildDetection
  split
  · split
    · dsimp only
      split
      · split <;> rfl
      · rfl
    · rfl
  · rfl

theorem syncPlayer_guildRuns (cache : GuildPlayerCache) (st : ServerState)
    (player : Player) (profile : RaiderIOProfile)
    (runDetailsOf : List Int → List RaiderIORun) (now : Int) :
    (syncPlayer cache st player (some profile) runDetailsOf now).1.guildRuns =
      (syncGuildDetection cache st profile runDetailsOf).guildRuns := by
  unfold syncPlayer
  dsimp only
  split
  · rfl
  · split
    · rw [deleteOldMythicRuns_guildRuns,
        foldl_preserves
          (fun acc : ServerState × RunDeduplicator × List ExistingRun =>
            acc.1.guildRuns)
          (syncRunStep player.id) (syncRunStep_guildRuns player.id)]
      rfl
    · rfl

theorem syncPlayer_events (cache : GuildPlayerCache) (st : ServerState)
    (player : Player) (profile : RaiderIOProfile)
    (runDetailsOf : List Int → List RaiderIORun) (now : Int) :
    (syncPlayer cache st player (some profile) runDetailsOf now).1.events =
      (syncGuildDetection cache st profile runDetailsOf).events := by
  unfold syncPlayer
  dsimp only
  split
  · rfl
  · split
    · rw [deleteOldMythicRuns_events,
        foldl_preserves
          (fun acc : ServerState × RunDeduplicator × List ExistingRun =>
            acc.1.events)
          (syncRunStep player.id) (syncRunStep_events player.id)]
      rfl
    · rfl

/-- C6 counterexample: for a player whose upstream profile compares as
unchanged, `syncPlayer` returns `skipped` and leaves the stored runs
completely untouched — the profile's fresh recent run is not upserted and
the six stored runs are not pruned to five — contradicting the claim that
the merge/upsert/prune pipeline runs regardless of the change-detection
outcome. -/
theorem claim_c6_counterexample :
    hasPlayerDataChanged c6Player c6Profile = false ∧
    (syncPlayer [] c6State c6Player (some c6Profile) (fun _ => []) 100).2 =
      SyncResult.skipped ∧
    (syncPlayer [] c6State c6Player (some c6Profile) (fun _ => []) 100).1.mythicRuns =
      c6State.mythicRuns ∧
    c6State.mythicRuns.length = 6 := by
  exact ⟨rfl, by decide, by decide, rfl⟩

/-- C6 as amended: for a found profile the per-player sync always extracts
recent-run identifiers and runs guild-run detection on the fetched details,
but the merge/dedup/upsert/stats/prune pipeline runs only when change
detection classifies the player as updated; when it classifies the player
as skipped, only the sync timestamp is refreshed and the stored runs are
untouched. -/
theorem claim_c6_sync_pipeline (cache : GuildPlayerCache) (st : ServerState)
    (player : Player) (profile : RaiderIOProfile)
    (runDetailsOf : List Int → List RaiderIORun) (now : Int) :
    ((syncPlayer cache st player (some profile) runDetailsOf now).1.guildRuns =
       (syncGuildDetection cache st profile runDetailsOf).guildRuns) ∧
    ((syncPlayer cache st player (some profile) runDetailsOf now).1.events =
       (syncGuildDetection cache st profile runDetailsOf).events) ∧
    (hasPlayerDataChanged player profile = false →
       (syncPlayer cache st player (some profile) runDetailsOf now).2 =
         SyncResult.skipped ∧
       (syncPlayer cache st player (some profile) runDetailsOf now).1.mythicRuns =
         st.mythicRuns ∧
       (syncPlayer cache st player (some profile) runDetailsOf now).1 =
         updatePlayerRow (syncGuildDetection cache st profile runDetailsOf)
           player.id (fun p => { p with lastRioSyncMs := some now })) ∧
    (hasPlayerDataChanged player profile = true →
       (syncPlayer cache st player (some profile) runDetailsOf now).2 =
         SyncResult.updated) := by
  refine ⟨syncPlayer_guildRuns cache st player profile runDetailsOf now,
    syncPlayer_events cache st player profile runDetailsOf now, ?_, ?_⟩
  · intro h
    unfold syncPlayer
    dsimp only
    simp only [h, Bool.not_false]
    rw [if_pos trivial]
    refine ⟨rfl, ?_, rfl⟩
    show (syncGuildDetection cache st profile runDetailsOf).mythicRuns =
      st.mythicRuns
    exact syncGuildDetection_mythicRuns cache st profile runDetailsOf
  · intro h
    unfold syncPlayer
    dsimp only
    simp only [h, Bool.not_true]
    rw [if_neg (by simp)]
    split <;> rfl

/-- Witness for the amended C6 theorem at concrete inputs: the unchanged
profile yields `skipped` with untouched stored runs, and the same profile
against a player whose stored score differs yields `updated`. -/
theorem claim_c6_sync_pipeline_witness :
    ((syncPlayer [] c6State c6Player (some c6Profile) (fun _ => []) 100).2 =
        SyncResult.skipped ∧
      (syncPlayer [] c6State c6Player (some c6Profile)
          (fun _ => []) 100).1.mythicRuns = c6State.mythicRuns) ∧
    (syncPlayer [] c6State { c6Player with mythicScore := 50 }
        (some c6Profile) (fun _ => []) 100).2 = SyncResult.updated := by
  refine ⟨⟨?_, ?_⟩, ?_⟩
  · exact ((claim_c6_sync_pipeline [] c6State c6Player c6Profile
      (fun _ => []) 100).2.2.1 rfl).1
  · exact ((claim_c6_sync_pipeline [] c6State c6Player c6Profile
      (fun _ => []) 100).2.2.1 rfl).2.1
  · exact (claim_c6_sync_pipeline [] c6State
      { c6Player with mythicScore := 50 } c6Profile
      (fun _ => []) 100).2.2.2 (by decide)

/-- The counter behaviour of one `updatePlayerStats` application: the
in-time/over-time choice is `clearTimeMs ≤ parTimeMs` and the level bracket
is chosen by the `≤6 / ≤9 / ≤14 / else` thresholds. -/
theorem updatePlayerStats_counter_fields (q : Player) (r : StatsRun)
    (e : List ExistingRun) :
    ((updatePlayerStats q r e).totalRunsTracked = q.totalRunsTracked + 1) ∧
    ((updatePlayerStats q r e).runsInTime =
        q.runsInTime + (if r.clearTimeMs ≤ r.parTimeMs then 1 else 0)) ∧
    ((updatePlayerStats q r e).runsOverTime =
        q.runsOverTime + (if r.clearTimeMs ≤ r.parTimeMs then 0 else 1)) ∧
    ((updatePlayerStats q r e).runsByLevelLow =
        q.runsByLevelLow + (if r.keyLevel ≤ 6 then 1 else 0)) ∧
    ((updatePlayerStats q r e).runsByLevelMid =
        q.runsByLevelMid + (if 6 < r.keyLevel ∧ r.keyLevel ≤ 9 then 1 else 0)) ∧
    ((updatePlayerStats q r e).runsByLevelHigh =
        q.runsByLevelHigh + (if 9 < r.keyLevel ∧ r.keyLevel ≤ 14 then 1 else 0)) ∧
    ((updatePlayerStats q r e).runsByLevelElite =
        q.runsByLevelElite + (if 14 < r.keyLevel then 1 else 0)) := by
  unfold updatePlayerStats levelBucketOf
  refine ⟨rfl, rfl, rfl, ?_, ?_, ?_, ?_⟩ <;>
    · dsimp only
      split_ifs <;> simp_all <;> omega

/-- C9: for a player whose counters start at zero, one novel run with
`clearTimeMs = 500000`, `parTimeMs = 600000`, `keyLevel = 8` yields
`totalRunsTracked = 1`, `runsInTime = 1`, `runsByLevelMid = 1`; in general
the in-time counter increments exactly when `clearTimeMs ≤ parTimeMs` and
the level bracket is chosen by the `≤6 → low, ≤9 → mid, ≤14 → high, else
elite` thresholds. -/
theorem claim_c9_stats_aggregation (p : Player) (run : StatsRun)
    (ex : List ExistingRun)
    (h0 : p.totalRunsTracked = 0) (h1 : p.runsInTime = 0)
    (h2 : p.runsByLevelMid = 0)
    (hc : run.clearTimeMs = 500000) (hp : run.parTimeMs = 600000)
    (hk : run.keyLevel = 8) :
    ((updatePlayerStats p run ex).totalRunsTracked = 1 ∧
     (updatePlayerStats p run ex).runsInTime = 1 ∧
     (updatePlayerStats p run ex).runsByLevelMid = 1) ∧
    (∀ (q : Player) (r : StatsRun) (e : List ExistingRun),
      ((updatePlayerStats q r e).runsInTime =
          q.runsInTime + (if r.clearTimeMs ≤ r.parTimeMs then 1 else 0)) ∧
      ((updatePlayerStats q r e).runsOverTime =
          q.runsOverTime + (if r.clearTimeMs ≤ r.parTimeMs then 0 else 1)) ∧
      ((updatePlayerStats q r e).runsByLevelLow =
          q.runsByLevelLow + (if r.keyLevel ≤ 6 then 1 else 0)) ∧
      ((updatePlayerStats q r e).runsByLevelMid =
          q.runsByLevelMid + (if 6 < r.keyLevel ∧ r.keyLevel ≤ 9 then 1 else 0)) ∧
      ((updatePlayerStats q r e).runsByLevelHigh =
          q.runsByLevelHigh + (if 9 < r.keyLevel ∧ r.keyLevel ≤ 14 then 1 else 0)) ∧
      ((updatePlayerStats q r e).runsByLevelElite =
          q.runsByLevelElite + (if 14 < r.keyLevel then 1 else 0))) := by
  constructor
  · obtain ⟨ht, hin, -, -, hmid, -, -⟩ := updatePlayerStats_counter_fields p run ex
    refine ⟨by rw [ht, h0]; norm_num, by rw [hin, h1, hc, hp]; norm_num,
      by rw [hmid, h2, hk]; norm_num⟩
  · intro q r e
    obtain ⟨-, hin, hover, hlow, hmid, hhigh, helite⟩ :=
      updatePlayerStats_counter_fields q r e
    exact ⟨hin, hover, hlow, hmid, hhigh, helite⟩

/-- Witness for C9 at a concrete zero-counter player and the claimed run. -/
theorem claim_c9_stats_aggregation_witness :
    ((updatePlayerStats (basePlayer "1" "A" "R" "Mage")
        { dungeon := "Ara-Kara", keyLevel := 8
          clearTimeMs := 500000, parTimeMs := 600000 } []).totalRunsTracked = 1 ∧
     (updatePlayerStats (basePlayer "1" "A" "R" "Mage")
        { dungeon := "Ara-Kara", keyLevel := 8
          clearTimeMs := 500000, parTimeMs := 600000 } []).runsInTime = 1 ∧
     (updatePlayerStats (basePlayer "1" "A" "R" "Mage")
        { dungeon := "Ara-Kara", keyLevel := 8
          clearTimeMs := 500000, parTimeMs := 600000 } []).runsByLevelMid = 1) ∧
    (∀ (q : Player) (r : StatsRun) (e : List ExistingRun),
      ((updatePlayerStats q r e).runsInTime =
          q.runsInTime + (if r.clearTimeMs ≤ r.parTimeMs then 1 else 0)) ∧
      ((updatePlayerStats q r e).runsOverTime =
          q.runsOverTime + (if r.clearTimeMs ≤ r.parTimeMs then 0 else 1)) ∧
      ((updatePlayerStats q r e).runsByLevelLow =
          q.runsByLevelLow + (if r.keyLevel ≤ 6 then 1 else 0)) ∧
      ((updatePlayerStats q r e).runsByLevelMid =
          q.runsByLevelMid + (if 6 < r.keyLevel ∧ r.keyLevel ≤ 9 then 1 else 0)) ∧
      ((updatePlayerStats q r e).runsByLevelHigh =
          q.runsByLevelHigh + (if 9 < r.keyLevel ∧ r.keyLevel ≤ 14 then 1 else 0)) ∧
      ((updatePlayerStats q r e).runsByLevelElite =
          q.runsByLevelElite + (if 14 < r.keyLevel then 1 else 0))) :=
  claim_c9_stats_aggregation (basePlayer "1" "A" "R" "Mage")
    { dungeon := "Ara-Kara", keyLevel := 8
      clearTimeMs := 500000, parTimeMs := 600000 } []
    rfl rfl rfl rfl rfl rfl

/-- C10: for a fixed player, the run upsert matches an existing row by
(player, dungeon, key level, calendar day) only — the URL plays no part —
so two upserts with the same key but different URLs leave a single stored
row, and the second overwrites the row's result fields only when its score
is strictly greater (otherwise state and returned row are unchanged); the
surviving row keeps the first upsert's URL. -/
theorem claim_c10_upsert_matching (st : ServerState) (r1 r2 : InsertMythicRun)
    (hfresh : st.mythicRuns.find? (runMatchKey r1) = none)
    (hpid : r2.playerId = r1.playerId) (hdun : r2.dungeon = r1.dungeon)
    (hkey : r2.keyLevel = r1.keyLevel)
    (hday : utcDayOf r2.timestampMs = utcDayOf r1.timestampMs)
    (hurl : r2.url ≠ r1.url) :
    ((upsertMythicRun (upsertMythicRun st r1).1 r2).1.mythicRuns.length =
        st.mythicRuns.length + 1) ∧
    (r2.score ≤ r1.score →
        (upsertMythicRun (upsertMythicRun st r1).1 r2).1 =
          (upsertMythicRun st r1).1 ∧
        (upsertMythicRun (upsertMythicRun st r1).1 r2).2 =
          (upsertMythicRun st r1).2) ∧
    (r1.score < r2.score →
        (upsertMythicRun (upsertMythicRun st r1).1 r2).2.score = r2.score ∧
        (upsertMythicRun (upsertMythicRun st r1).1 r2).2.completionTime =
          r2.completionTime ∧
        (upsertMythicRun (upsertMythicRun st r1).1 r2).2.timerPercent =
          r2.timerPercent ∧
        (upsertMythicRun (upsertMythicRun st r1).1 r2).2.affixes = r2.affixes ∧
        (upsertMythicRun (upsertMythicRun st r1).1 r2).2.clearTimeMs =
          r2.clearTimeMs ∧
        (upsertMythicRun (upsertMythicRun st r1).1 r2).2.parTimeMs =
          r2.parTimeMs ∧
        (upsertMythicRun (upsertMythicRun st r1).1 r2).2.url = r1.url ∧
        (upsertMythicRun (upsertMythicRun st r1).1 r2).2.timestampMs =
          r1.timestampMs) := by
  have hkey2 : runMatchKey r2 = runMatchKey r1 := by
    funext r; simp [runMatchKey, hpid, hdun, hkey, hday]
  have h1 : upsertMythicRun st r1 =
      ({ st with mythicRuns := st.mythicRuns ++ [insertedRunRow st r1],
                 nextId := st.nextId + 1 }, insertedRunRow st r1) := by
    unfold upsertMythicRun
    rw [hfresh]
  have hrowkey : runMatchKey r1 (insertedRunRow st r1) = true := by
    simp [runMatchKey, insertedRunRow]
  have hfind2 : (st.mythicRuns ++ [insertedRunRow st r1]).find?
      (runMatchKey r2) = some (insertedRunRow st r1) := by
    rw [hkey2, List.find?_append, hfresh]
    simp [List.find?, hrowkey]
  rw [h1]
  unfold upsertMythicRun
  rw [hfind2]
  dsimp only
  by_cases hs : r2.score > (insertedRunRow st r1).score
  · rw [if_pos hs]
    refine ⟨by simp, fun hle => absurd hs (by simp [insertedRunRow]; omega), fun _ => ?_⟩
    exact ⟨rfl, rfl, rfl, rfl, rfl, rfl, rfl, rfl⟩
  · rw [if_neg hs]
    have hs' : ¬ r1.score < r2.score := by
      simpa [insertedRunRow] using hs
    refine ⟨by simp, fun _ => ⟨rfl, rfl⟩, fun hlt => absurd hlt hs'⟩

/-- Witness for C10: the two concrete inserts share the key, differ in URL,
and the second carries the higher score. -/
theorem claim_c10_upsert_matching_witness :
    ((emptyState "R").mythicRuns.find? (runMatchKey c10r1) = none ∧
     utcDayOf c10r2.timestampMs = utcDayOf c10r1.timestampMs ∧
     c10r2.url ≠ c10r1.url) ∧
    (((upsertMythicRun (upsertMythicRun (emptyState "R") c10r1).1 c10r2).1.mythicRuns.length =
        (emptyState "R").mythicRuns.length + 1) ∧
     (c10r2.score ≤ c10r1.score →
        (upsertMythicRun (upsertMythicRun (emptyState "R") c10r1).1 c10r2).1 =
          (upsertMythicRun (emptyState "R") c10r1).1 ∧
        (upsertMythicRun (upsertMythicRun (emptyState "R") c10r1).1 c10r2).2 =
          (upsertMythicRun (emptyState "R") c10r1).2) ∧
     (c10r1.score < c10r2.score →
        (upsertMythicRun (upsertMythicRun (emptyState "R") c10r1).1 c10r2).2.score = c10r2.score ∧
        (upsertMythicRun (upsertMythicRun (emptyState "R") c10r1).1 c10r2).2.completionTime =
          c10r2.completionTime ∧
        (upsertMythicRun (upsertMythicRun (emptyState "R") c10r1).1 c10r2).2.timerPercent =
          c10r2.timerPercent ∧
        (upsertMythicRun (upsertMythicRun (emptyState "R") c10r1).1 c10r2).2.affixes = c10r2.affixes ∧
        (upsertMythicRun (upsertMythicRun (emptyState "R") c10r1).1 c10r2).2.clearTimeMs =
          c10r2.clearTimeMs ∧
        (upsertMythicRun (upsertMythicRun (emptyState "R") c10r1).1 c10r2).2.parTimeMs =
          c10r2.parTimeMs ∧
        (upsertMythicRun (upsertMythicRun (emptyState "R") c10r1).1 c10r2).2.url = c10r1.url ∧
        (upsertMythicRun (upsertMythicRun (emptyState "R") c10r1).1 c10r2).2.timestampMs =
          c10r1.timestampMs)) :=
  ⟨⟨rfl, by decide, by decide⟩,
   claim_c10_upsert_matching (emptyState "R") c10r1 c10r2 rfl rfl rfl rfl
     (by decide) (by decide)⟩

/-- C8: a fetched run whose roster resolves to at least two active guild
members (`guildMembersOf` = `m :: rest`, non-degenerate) and whose derived
run-key is not yet stored creates exactly one `GuildMythicRun` (carrying
that run-key, the member ids/names and their count) and exactly one
`ActivityEvent`, attributed to the first matched member, whose description
lists all matched member names; processing any run with the same derived
run-key on a later pass changes nothing. -/
theorem claim_c8_guild_run_detection (cache : GuildPlayerCache)
    (st : GuildRunState) (run : RaiderIORun) (m : Player) (rest : List Player)
    (hmem : guildMembersOf cache run = m :: rest)
    (hlen : 2 ≤ (m :: rest).length)
    (hfresh : st.guildRuns.find? (fun g => g.runKey = generateRunKey run) = none) :
    ((processGuildRuns cache st [run]).guildRuns.length =
        st.guildRuns.length + 1) ∧
    ((processGuildRuns cache st [run]).events.length = st.events.length + 1) ∧
    (∃ g, (processGuildRuns cache st [run]).guildRuns = st.guildRuns ++ [g] ∧
        g.runKey = generateRunKey run ∧
        g.dungeon = run.dungeon ∧
        g.mythicLevel = run.mythic_level ∧
        g.guildPlayerIds = (m :: rest).map (fun p => p.id) ∧
        g.guildPlayerNames = (m :: rest).map (fun p => p.name) ∧
        g.totalGuildMembers = ((m :: rest).length : Int)) ∧
    (∃ ev, (processGuildRuns cache st [run]).events = st.events ++ [ev] ∧
        ev.type = "guild_mythic_run" ∧
        ev.playerId = m.id ∧
        ev.playerName = m.name ∧
        ev.description = some ("Guild group: " ++
          String.intercalate ", " ((m :: rest).map (fun p => p.name)))) ∧
    (∀ r2 : RaiderIORun, generateRunKey r2 = generateRunKey run →
        processGuildRuns cache (processGuildRuns cache st [run]) [r2] =
          processGuildRuns cache st [run]) := by
  have hsingle : processGuildRuns cache st [run] = processGuildRun1 cache st run := rfl
  have hroster : ¬ run.roster.length < 2 := by
    have hle : (guildMembersOf cache run).length ≤ run.roster.length :=
      List.length_filterMap_le _ _
    rw [hmem] at hle
    simp only [List.length_cons] at hle hlen
    omega
  have hmlen : ¬ (guildMembersOf cache run).length < 2 := by
    rw [hmem]; exact Nat.not_lt.mpr hlen
  have hstep : processGuildRun1 cache st run =
      { guildRuns := st.guildRuns ++
          [{ id := toString st.nextId
             runKey := generateRunKey run
             dungeon := run.dungeon
             mythicLevel := run.mythic_level
             completedAtMs := run.completed_at_ms
             clearTimeMs := run.clear_time_ms
             parTimeMs := run.par_time_ms
             score := run.score
             keystoneUpgrades := run.num_keystone_upgrades
             guildPlayerIds := (m :: rest).map (fun p => p.id)
             guildPlayerNames := (m :: rest).map (fun p => p.name)
             totalGuildMembers := (m :: rest).length }]
        events := st.events ++
          [{ id := toString (st.nextId + 1)
             type := "guild_mythic_run"
             playerId := m.id
             playerName := m.name
             playerClass := m.className
             title := s!"Completed {run.dungeon} +{run.mythic_level}"
             description := some ("Guild group: " ++
               String.intercalate ", " ((m :: rest).map (fun p => p.name)))
             value := run.mythic_level
             timestampMs := run.completed_at_ms }]
        nextId := st.nextId + 2 } := by
    unfold processGuildRun1
    rw [if_neg hroster]
    dsimp only
    rw [if_neg hmlen, hfresh, hmem]
    have h21 : 1 < (m :: rest).length := lt_of_lt_of_le one_lt_two hlen
    have hne : rest ≠ [] := by
      intro h
      rw [h] at h21
      simp at h21
    simp [h21, hne, toString]
  rw [hsingle, hstep]
  refine ⟨by simp, by simp, ⟨_, rfl, rfl, rfl, rfl, rfl, rfl, rfl⟩,
    ⟨_, rfl, rfl, rfl, rfl, rfl⟩, ?_⟩
  · intro r2 hk2
    show processGuildRun1 cache _ r2 = _
    unfold processGuildRun1
    by_cases h1 : r2.roster.length < 2
    · rw [if_pos h1]
    · rw [if_neg h1]
      dsimp only
      by_cases h2 : (guildMembersOf cache r2).length < 2
      · rw [if_pos h2]
      · rw [if_neg h2]
        have hsome : ((st.guildRuns ++
            [({ id := toString st.nextId
                runKey := generateRunKey run
                dungeon := run.dungeon
                mythicLevel := run.mythic_level
                completedAtMs := run.completed_at_ms
                clearTimeMs := run.clear_time_ms
                parTimeMs := run.par_time_ms
                score := run.score
                keystoneUpgrades := run.num_keystone_upgrades
                guildPlayerIds := (m :: rest).map (fun p => p.id)
                guildPlayerNames := (m :: rest).map (fun p => p.name)
                totalGuildMembers := (m :: rest).length } : GuildMythicRun)]).find?
              (fun g => g.runKey = generateRunKey r2)).isSome := by
          refine List.find?_isSome.mpr ⟨_, List.mem_append_right _ (List.mem_singleton.mpr rfl), ?_⟩
          simp [hk2]
        rw [if_pos hsome]

/-- Witness for C8: the concrete three-member run resolves to the two
cached players and creates one guild run and one event. -/
theorem claim_c8_guild_run_detection_witness :
    (guildMembersOf c8Cache c8Run = c8P1 :: [c8P2] ∧
     2 ≤ (c8P1 :: [c8P2]).length ∧
     c8St.guildRuns.find? (fun g => g.runKey = generateRunKey c8Run) = none) ∧
    (((processGuildRuns c8Cache c8St [c8Run]).guildRuns.length =
        c8St.guildRuns.length + 1) ∧
     ((processGuildRuns c8Cache c8St [c8Run]).events.length =
        c8St.events.length + 1) ∧
     (∃ g, (processGuildRuns c8Cache c8St [c8Run]).guildRuns =
          c8St.guildRuns ++ [g] ∧
        g.runKey = generateRunKey c8Run ∧
        g.dungeon = c8Run.dungeon ∧
        g.mythicLevel = c8Run.mythic_level ∧
        g.guildPlayerIds = (c8P1 :: [c8P2]).map (fun p => p.id) ∧
        g.guildPlayerNames = (c8P1 :: [c8P2]).map (fun p => p.name) ∧
        g.totalGuildMembers = ((c8P1 :: [c8P2]).length : Int)) ∧
     (∃ ev, (processGuildRuns c8Cache c8St [c8Run]).events =
          c8St.events ++ [ev] ∧
        ev.type = "guild_mythic_run" ∧
        ev.playerId = c8P1.id ∧
        ev.playerName = c8P1.name ∧
        ev.description = some ("Guild group: " ++
          String.intercalate ", " ((c8P1 :: [c8P2]).map (fun p => p.name)))) ∧
     (∀ r2 : RaiderIORun, generateRunKey r2 = generateRunKey c8Run →
        processGuildRuns c8Cache (processGuildRuns c8Cache c8St [c8Run]) [r2] =
          processGuildRuns c8Cache c8St [c8Run])) :=
  ⟨⟨by decide, by decide, rfl⟩,
   claim_c8_guild_run_detection c8Cache c8St c8Run c8P1 [c8P2]
     (by decide) (by decide) rfl⟩

/-- C7 counterexample: a candidate carrying a URL (`"u"`) that is not in
the deduplicator's URL set is still rejected, because its
dungeon/keyLevel/UTC-day composite key matches a stored URL-less run — so
URL-set membership alone does not decide novelty. -/
theorem claim_c7_counterexample :
    (truthyStr (ApiRun.url
        { dungeon := "Ara-Kara", mythic_level := 2
          completed_at_ms := 1000, url := some "u" }) = true) ∧
    ((RunDeduplicator.ofExistingRuns
        [{ dungeon := "Ara-Kara", keyLevel := 2, timestampMs := 0,
           url := none }]).urlSet.contains "u" = false) ∧
    ((RunDeduplicator.ofExistingRuns
        [{ dungeon := "Ara-Kara", keyLevel := 2, timestampMs := 0,
           url := none }]).isNewRun
      { dungeon := "Ara-Kara", mythic_level := 2
        completed_at_ms := 1000, url := some "u" } = false) := by
  refine ⟨rfl, by decide, by decide⟩

/-- C7 as amended: for a candidate carrying a truthy URL, `isNewRun`
returns true iff the URL is not in the URL set AND the candidate's
dungeon/keyLevel/UTC-day composite key is not in the composite-key set —
the composite key participates in the decision alongside the URL. -/
theorem claim_c7_amended (d : RunDeduplicator) (run : ApiRun)
    (h : truthyStr run.url = true) :
    d.isNewRun run =
      (!d.urlSet.contains (run.url.getD "") &&
       !d.compositeKeySet.contains
         (makeCompositeKey run.dungeon run.mythic_level run.completed_at_ms)) := by
  simp [RunDeduplicator.isNewRun, h]

/-- Witness for the amended C7 at a concrete deduplicator and candidate. -/
theorem claim_c7_amended_witness :
    truthyStr (ApiRun.url
      { dungeon := "Ara-Kara", mythic_level := 2
        completed_at_ms := 1000, url := some "u" }) = true ∧
    (RunDeduplicator.ofExistingRuns
        [{ dungeon := "Ara-Kara", keyLevel := 2, timestampMs := 0,
           url := none }]).isNewRun
      { dungeon := "Ara-Kara", mythic_level := 2
        completed_at_ms := 1000, url := some "u" } =
      (!(RunDeduplicator.ofExistingRuns
          [{ dungeon := "Ara-Kara", keyLevel := 2, timestampMs := 0,
             url := none }]).urlSet.contains
         (Option.getD (ApiRun.url
           { dungeon := "Ara-Kara", mythic_level := 2
             completed_at_ms := 1000, url := some "u" }) "") &&
       !(RunDeduplicator.ofExistingRuns
          [{ dungeon := "Ara-Kara", keyLevel := 2, timestampMs := 0,
             url := none }]).compositeKeySet.contains
         (makeCompositeKey "Ara-Kara" 2 1000)) :=
  ⟨rfl, claim_c7_amended _ _ rfl⟩

end GAT
